import Mathlib

/- Verification development for the Crystals repository
   (tig_civilization_v5.py and tig_civilization_v7.py).

   Shallow-embedding conventions:
   - Python floats are modelled as rationals; every numeric constant of the
     source is carried over exactly (0.15 = 3/20, 0.8 = 4/5, ...).
   - The Python global `random` generator is modelled as an explicit stream
     of rationals in [0,1) (`Rng`) threaded through every function that
     draws.  `random.random()` pops one stream value; `random.choice`,
     `random.sample`, `random.uniform`, `random.gauss` and `random.randint`
     are modelled as pure functions of popped values (one value per
     elementary selection).  The exact bit-level behaviour of the Mersenne
     twister is not embeddable; only the draw structure is, which is what
     the claims quantify over.
   - In-place mutation of agents becomes functional record update; the
     population list is updated by agent id (ids are unique in every run).
   - The dynamic attribute `_recent_defections` (attached by `interact` via
     `hasattr`) is modelled as an `Option Int` field that is `none` until
     `interact` first initialises it. -/

/-- Explicit random stream: the model of the Python global generator state. -/
structure Rng where
  vals : List ℚ
deriving DecidableEq

/-- Pop one draw; an exhausted stream yields 0. -/
def Rng.next (r : Rng) : ℚ × Rng :=
  match r.vals with
  | [] => (0, { vals := [] })
  | v :: vs => (v, { vals := vs })

/-- All stream values lie in [0,1), as `random.random()` guarantees. -/
def Rng.bounded (r : Rng) : Prop := ∀ v ∈ r.vals, 0 ≤ v ∧ v < 1

/-- Index drawn by `random.choice` on a sequence of length `n`, from one
stream value in [0,1). -/
def chooseIdx (n : ℕ) (v : ℚ) : ℕ := min (Int.toNat ⌊v * n⌋) (n - 1)

/-- Model of `random.choice` on a non-empty list (`x0` is a fallback that
callers never reach, since they guard emptiness). -/
def choiceGet {α : Type} (xs : List α) (x0 : α) (r : Rng) : α × Rng :=
  let p := r.next
  (xs.getD (chooseIdx xs.length p.1) x0, p.2)

/-- Model of `random.choice`, raising (none) on an empty sequence. -/
def choiceOpt {α : Type} (xs : List α) (r : Rng) : Option (α × Rng) :=
  match xs with
  | [] => none
  | x :: _ => some (choiceGet xs x r)

/-- Model of a two-element `random.choice` such as
`random.choice(["cooperate", "defect"])`. -/
def choice2 (a b : String) (r : Rng) : String × Rng :=
  let p := r.next
  (if chooseIdx 2 p.1 = 0 then a else b, p.2)

/-- Model of a three-element `random.choice`. -/
def choice3 (a b c : String) (r : Rng) : String × Rng :=
  let p := r.next
  let i := chooseIdx 3 p.1
  (if i = 0 then a else if i = 1 then b else c, p.2)

/-- Model of `random.sample xs k`: k uniform draws without replacement, one
stream value per selected element.  Truncates when `k` exceeds the length;
`sampleOpt` is the checked variant mirroring Python raising ValueError. -/
def sampleK {α : Type} (xs : List α) (k : ℕ) (r : Rng) : List α × Rng :=
  match k, xs with
  | 0, _ => ([], r)
  | _ + 1, [] => ([], r)
  | k + 1, x :: tl =>
    let p := r.next
    let i := chooseIdx (x :: tl).length p.1
    let rest := sampleK ((x :: tl).eraseIdx i) k p.2
    ((x :: tl).getD i x :: rest.1, rest.2)

/-- Checked `random.sample`: none when the sample is larger than the
population (Python raises there). -/
def sampleOpt {α : Type} (xs : List α) (k : ℕ) (r : Rng) : Option (List α × Rng) :=
  if k ≤ xs.length then some (sampleK xs k r) else none

/-- Stable insertion into an ascending-by-key list (equal keys keep the
original order), modelling Python's stable `sorted`. -/
def insertAscBy {α : Type} (key : α → ℚ) (x : α) : List α → List α
  | [] => [x]
  | y :: ys => if key y < key x then y :: insertAscBy key x ys else x :: y :: ys

/-- Stable ascending sort by a rational key (`sorted(xs, key=...)`). -/
def sortAscBy {α : Type} (key : α → ℚ) : List α → List α
  | [] => []
  | x :: xs => insertAscBy key x (sortAscBy key xs)

/-- Stable insertion into a descending-by-key list. -/
def insertDescBy {α : Type} (key : α → ℚ) (x : α) : List α → List α
  | [] => [x]
  | y :: ys => if key x < key y then y :: insertDescBy key x ys else x :: y :: ys

/-- Stable descending sort (`sorted(xs, key=..., reverse=True)`). -/
def sortDescBy {α : Type} (key : α → ℚ) : List α → List α
  | [] => []
  | x :: xs => insertDescBy key x (sortDescBy key xs)

/-- Model of `random.uniform a b`: `a + (b - a) * random()`. -/
def uniform_draw (a b : ℚ) (r : Rng) : ℚ × Rng :=
  let p := r.next
  (a + (b - a) * p.1, p.2)

/-- Abstraction of `random.gauss mu sigma`: one stream draw mapped
affinely.  The Gaussian shape itself is irrelevant to every claim (the
result is clamped at its only use site). -/
def gauss_draw (mu sigma : ℚ) (r : Rng) : ℚ × Rng :=
  let p := r.next
  (mu + sigma * (2 * p.1 - 1), p.2)

/-- Model of `random.randint a b` (both ends inclusive). -/
def randint_draw (a b : ℕ) (r : Rng) : ℕ × Rng :=
  let p := r.next
  (a + chooseIdx (b - a + 1) p.1, p.2)

/-- Python slice `xs[-n:]`: the last `n` elements. -/
def lastN {α : Type} (n : ℕ) (xs : List α) : List α := xs.drop (xs.length - n)

/-- Iterate a fallible step `n` times (a Python `for` loop whose body may
raise). -/
def iterOpt {α : Type} (f : α → Option α) : ℕ → α → Option α
  | 0, st => some st
  | n + 1, st =>
    match f st with
    | none => none
    | some st2 => iterOpt f n st2

/-- Scar record (the dataclass is identical in both source files). -/
structure Scar where
  other_strategy : String
  my_response : String
  outcome : String
  weight : ℚ
  age : ℕ := 0
  source : String := "experience"
deriving DecidableEq

/-- Weight table of `Whole.learn`: thrived 0.8, survived 0.5, suffered 0.2.
Any other key raises KeyError in the source and is never passed; the 0
default is unreachable. -/
def outcome_weight (o : String) : ℚ :=
  if o = "thrived" then 4/5
  else if o = "survived" then 1/2
  else if o = "suffered" then 1/5
  else 0

/-- Inherited copy of a scar with multiplicative weight decay, as built at
every inheritance site of both files (age resets to 0). -/
def inherit_scar (s : Scar) (mult : ℚ) : Scar :=
  { other_strategy := s.other_strategy, my_response := s.my_response,
    outcome := s.outcome, weight := s.weight * mult, source := "inherited" }

/-- The scar implanted by teaching in both files:
Scar(cooperate, cooperate, thrived, weight 0.7, source taught). -/
def taught_scar : Scar :=
  { other_strategy := "cooperate", my_response := "cooperate",
    outcome := "thrived", weight := 7/10, source := "taught" }

/-- Training scar preloaded into coherent and bridge AIs (both files):
Scar(cooperate, cooperate, thrived, weight 0.8, source training). -/
def training_scar : Scar :=
  { other_strategy := "cooperate", my_response := "cooperate",
    outcome := "thrived", weight := 4/5, source := "training" }

/-- Per-scar inheritance loop: one draw per scar, copied when the draw is
below `prob`. -/
def inherit_loop (scars : List Scar) (prob mult : ℚ) (r : Rng) : List Scar × Rng :=
  match scars with
  | [] => ([], r)
  | s :: rest =>
    let p := r.next
    let t := inherit_loop rest prob mult p.2
    (if p.1 < prob then inherit_scar s mult :: t.1 else t.1, t.2)

namespace V7

/-- Agent dataclass of tig_civilization_v7.py.  `recent_defections` models
the dynamic `_recent_defections` attribute (absent = none). -/
structure Whole where
  id : ℕ
  s_star : ℚ := 1/2
  is_ai : Bool := false
  ai_type : String := ""
  generation : ℕ := 0
  crucible_tested : Bool := false
  corrupted : Bool := false
  isolated : Bool := false
  trust_in_institutions : ℚ := 1/2
  awakened : Bool := false
  scars : List Scar := []
  interactions : ℕ := 0
  cooperations : ℕ := 0
  defections : ℕ := 0
  taught_by : Option ℕ := none
  recent_defections : Option ℤ := none
deriving DecidableEq

/-- Derived cooperation tendency (v7): note that the coherent and bridge
AI variants share the single 0.95 branch. -/
def Whole.cooperation_tendency (w : Whole) : ℚ :=
  if w.corrupted then 1/10
  else if w.is_ai ∧ w.ai_type = "aggressive" then 1/20
  else if w.is_ai ∧ (w.ai_type = "coherent" ∨ w.ai_type = "bridge") then 19/20
  else if w.awakened then 9/10
  else if w.scars = [] then 1/2
  else
    let active := w.scars.filter (fun s => Decidable.decide ((1:ℚ)/10 < s.weight))
    if active = [] then 1/2
    else
      let coop_weight := ((active.filter (fun s =>
        Decidable.decide (s.my_response = "cooperate" ∧
          (s.outcome = "survived" ∨ s.outcome = "thrived")))).map Scar.weight).sum
      let defect_weight := ((active.filter (fun s =>
        Decidable.decide (s.my_response = "defect" ∧
          (s.outcome = "survived" ∨ s.outcome = "thrived")))).map Scar.weight).sum
      let total := coop_weight + defect_weight
      if 0 < total then coop_weight / total else 1/2

/-- Teaching qualification (v7 only). -/
def Whole.can_teach (w : Whole) : Bool :=
  if w.is_ai ∧ w.ai_type = "bridge" then true
  else if w.awakened then true
  else if w.taught_by ≠ none ∧ (4:ℚ)/5 < w.cooperation_tendency ∧ (7:ℚ)/10 < w.s_star then true
  else false

/-- Reverse scan over the last-20 scar window in `Whole.decide`: a scar
with weight > 0.3 and outcome thrived draws once and, below its weight,
returns that scar response; otherwise the scan continues. -/
def scar_recall (scars : List Scar) (r : Rng) : Option String × Rng :=
  match scars with
  | [] => (none, r)
  | s :: rest =>
    if (3:ℚ)/10 < s.weight ∧ s.outcome = "thrived" then
      let p := r.next
      if p.1 < s.weight then (some s.my_response, p.2) else scar_recall rest p.2
    else scar_recall rest r

/-- Decision policy (v7). -/
def Whole.decide (w other : Whole) (noise : ℚ) (r : Rng) : String × Rng :=
  if w.corrupted then ("defect", r)
  else if w.is_ai then
    if w.ai_type = "aggressive" then ("defect", r)
    else if w.ai_type = "coherent" ∨ w.ai_type = "bridge" then
      ((match other.recent_defections with
        | some d => if 3 < d then "defect" else "cooperate"
        | none => "cooperate"), r)
    else choice2 ("cooperate") ("defect") r
  else if w.awakened then ("cooperate", r)
  else
    let p1 := r.next
    if p1.1 < noise then choice2 ("cooperate") ("defect") p1.2
    else
      let p2 := p1.2.next
      let distrust :=
        if w.trust_in_institutions < p2.1 then
          let p3 := p2.2.next
          ((if p3.1 < (3:ℚ)/10 then some ("defect" : String) else none), p3.2)
        else ((none : Option String), p2.2)
      match distrust.1 with
      | some a => (a, distrust.2)
      | none =>
        let sc := scar_recall (lastN 20 w.scars).reverse distrust.2
        match sc.1 with
        | some a => (a, sc.2)
        | none =>
          let p4 := sc.2.next
          ((if p4.1 < (w.cooperation_tendency + w.s_star) / 2 then "cooperate" else "defect"),
           p4.2)

/-- Scar append with the 100 cap (`self.scars = self.scars[-100:]`). -/
def Whole.learn (w : Whole) (my_action their_action outcome source : String) : Whole :=
  let scars1 := w.scars ++ [Scar.mk their_action my_action outcome (outcome_weight outcome) 0 source]
  { w with scars := if 100 < scars1.length then lastN 100 scars1 else scars1 }

/-- Teaching (v7): taught scar append (uncapped), taught_by, trust raise,
5 percent awakening draw. -/
def Whole.receive_teaching (w teacher : Whole) (r : Rng) : Whole × Rng :=
  if teacher.can_teach then
    let w1 := { w with scars := w.scars ++ [taught_scar], taught_by := some teacher.id, trust_in_institutions := min 1 (w.trust_in_institutions + 1/10) }
    let p := r.next
    (if p.1 < (1:ℚ)/20 then { w1 with awakened := true } else w1, p.2)
  else (w, r)

/-- Coherence update, clamped to [0.01, 1.0]. -/
def Whole.update_coherence (w : Whole) (delta : ℚ) : Whole :=
  { w with s_star := max (1/100) (min 1 (w.s_star + delta)) }

/-- Viability threshold 0.1. -/
def Whole.is_viable (w : Whole) : Bool := Decidable.decide ((1:ℚ)/10 < w.s_star)

/-- The `hasattr` initialisation at the top of `interact`. -/
def Whole.init_rd (w : Whole) : Whole :=
  if w.recent_defections = none then { w with recent_defections := some 0 } else w

/-- Value of the `_recent_defections` attribute once initialised. -/
def Whole.rd_val (w : Whole) : ℤ := w.recent_defections.getD 0

/-- Outcome of the payoff table of one interaction. -/
structure Resolved where
  w1 : Whole
  w2 : Whole
  d1 : ℚ
  d2 : ℚ
  o1 : String
  o2 : String
deriving DecidableEq

/-- Payoff resolution of `interact` (v7): coherence deltas, outcome labels,
cooperation/defection counters and `_recent_defections` updates for the
four joint-action branches.  In the two one-sided branches only the
defector's counter moves (v7 does not touch the cooperator's). -/
def resolve (w1 w2 : Whole) (a1 a2 : String) (scarcity pen : ℚ) : Resolved :=
  let m := 1 + scarcity * 2
  if a1 = "cooperate" ∧ a2 = "cooperate" then
    let n1 := { w1 with cooperations := w1.cooperations + 1, recent_defections := some (max 0 (w1.rd_val - 1)) }
    let n2 := { w2 with cooperations := w2.cooperations + 1, recent_defections := some (max 0 (w2.rd_val - 1)) }
    { w1 := n1, w2 := n2, d1 := 3/20 * (1 - scarcity) - pen, d2 := 3/20 * (1 - scarcity) - pen, o1 := "thrived", o2 := "thrived" }
  else if a1 = "defect" ∧ a2 = "defect" then
    let n1 := { w1 with defections := w1.defections + 1, recent_defections := some (w1.rd_val + 1) }
    let n2 := { w2 with defections := w2.defections + 1, recent_defections := some (w2.rd_val + 1) }
    { w1 := n1, w2 := n2, d1 := -(1/10) * m, d2 := -(1/10) * m, o1 := "suffered", o2 := "suffered" }
  else if a1 = "defect" then
    let n1 := { w1 with defections := w1.defections + 1, recent_defections := some (w1.rd_val + 1) }
    let n2 := { w2 with cooperations := w2.cooperations + 1 }
    { w1 := n1, w2 := n2, d1 := 1/10 * m, d2 := -(1/5) * m, o1 := "survived", o2 := "suffered" }
  else
    let n1 := { w1 with cooperations := w1.cooperations + 1 }
    let n2 := { w2 with defections := w2.defections + 1, recent_defections := some (w2.rd_val + 1) }
    { w1 := n1, w2 := n2, d1 := -(1/5) * m, d2 := 1/10 * m, o1 := "suffered", o2 := "survived" }

/-- One pairwise interaction (v7): decisions, polarization penalty draw
(only when both agents are isolated), payoff resolution, coherence and
scar updates, interaction counters, then the teaching trigger on mutual
cooperation.  The second teaching check reads the possibly already-taught
state of `w2`, as the Python object mutation does. -/
def interact (w1 w2 : Whole) (noise scarcity polarization : ℚ) (r : Rng) :
    Whole × Whole × Rng :=
  let u1 := w1.init_rd
  let u2 := w2.init_rd
  let q1 := Whole.decide u1 u2 noise r
  let a1 := q1.1
  let q2 := Whole.decide u2 u1 noise q1.2
  let a2 := q2.1
  let qp :=
    if u1.isolated ∧ u2.isolated then
      let p := q2.2.next
      ((if p.1 < polarization then (1/20 : ℚ) else 0), p.2)
    else ((0 : ℚ), q2.2)
  let res := resolve u1 u2 a1 a2 scarcity qp.1
  let e1a := (res.w1.update_coherence res.d1).learn a1 a2 res.o1 ("experience")
  let e2a := (res.w2.update_coherence res.d2).learn a2 a1 res.o2 ("experience")
  let e1 := { e1a with interactions := e1a.interactions + 1 }
  let e2 := { e2a with interactions := e2a.interactions + 1 }
  if a1 = "cooperate" ∧ a2 = "cooperate" then
    let t2 :=
      if e1.can_teach ∧ ¬ e2.is_ai ∧ e2.taught_by = none
      then Whole.receive_teaching e2 e1 qp.2 else (e2, qp.2)
    let f2 := t2.1
    let t1 :=
      if f2.can_teach ∧ ¬ e1.is_ai ∧ e1.taught_by = none
      then Whole.receive_teaching e1 f2 t2.2 else (e1, t2.2)
    (t1.1, f2, t1.2)
  else (e1, e2, qp.2)

/-- Human factory (v7): trust and isolation are passed in, coherence drawn
uniformly from [0.3, 0.7]. -/
def create_human (next_id : ℕ) (trust : ℚ) (isolated : Bool) (r : Rng) : Whole × Rng :=
  let u := uniform_draw (3/10) (7/10) r
  ({ id := next_id, trust_in_institutions := trust, s_star := u.1, isolated := isolated }, u.2)

/-- AI factory: coherent and bridge AIs start at coherence 0.9 with 20
training scars and crucible_tested, others at 0.5. -/
def create_ai (next_id : ℕ) (t : String) : Whole :=
  let base : Whole := { id := next_id, is_ai := true, ai_type := t, s_star := if t = "coherent" ∨ t = "bridge" then 9/10 else 1/2 }
  if t = "coherent" ∨ t = "bridge" then
    { base with scars := List.replicate 20 training_scar, crucible_tested := true }
  else base

/-- The fifteen experience scars of a freshly created awakened human. -/
def awakened_scar : Scar :=
  { other_strategy := "cooperate", my_response := "cooperate",
    outcome := "thrived", weight := 3/4, source := "experience" }

/-- Awakened-human factory (v7). -/
def create_awakened_human (next_id : ℕ) : Whole :=
  { id := next_id, awakened := true, s_star := 8/10, trust_in_institutions := 8/10, scars := List.replicate 15 awakened_scar, crucible_tested := true }

/-- Scar loop of `build_declining_civilization`: each scar draws strategy,
response, outcome and a uniform weight in [0.1, 0.4]. -/
def decl_scars (n : ℕ) (r : Rng) : List Scar × Rng :=
  match n with
  | 0 => ([], r)
  | n + 1 =>
    let c1 := choice2 ("cooperate") ("defect") r
    let c2 := choice2 ("cooperate") ("defect") c1.2
    let c3 := choice3 ("thrived") ("survived") ("suffered") c2.2
    let cw := uniform_draw (1/10) (4/10) c3.2
    let s : Scar := { other_strategy := c1.1, my_response := c2.1, outcome := c3.1, weight := cw.1, source := "inherited" }
    let rest := decl_scars n cw.2
    (s :: rest.1, rest.2)

/-- One human of `build_declining_civilization`: clamped Gaussian trust,
40 percent isolation, 0 to 5 weak inherited scars, 5 percent corruption. -/
def decl_human (next_id : ℕ) (r : Rng) : Whole × Rng :=
  let g := gauss_draw (35/100) (15/100) r
  let trust := max (1/10) (min (8/10) g.1)
  let piso := g.2.next
  let ch := create_human next_id trust (Decidable.decide (piso.1 < (4:ℚ)/10)) piso.2
  let nsc := randint_draw 0 5 ch.2
  let sc := decl_scars nsc.1 nsc.2
  let w1 := { ch.1 with scars := ch.1.scars ++ sc.1 }
  let pcor := sc.2.next
  (if pcor.1 < (1:ℚ)/20 then { w1 with corrupted := true } else w1, pcor.2)

/-- Builder `build_declining_civilization` (v7). -/
def build_declining_civilization (n_humans : ℕ) (next_id_start : ℕ) (r : Rng) :
    List Whole × ℕ × Rng :=
  match n_humans with
  | 0 => ([], next_id_start, r)
  | n + 1 =>
    let h := decl_human next_id_start r
    let rest := build_declining_civilization n (next_id_start + 1) h.2
    (h.1 :: rest.1, rest.2.1, rest.2.2)

/-- Per-generation metric record (v7); the field coop models the source
key "coop" (cooperation ratio over humans, 0 on a zero denominator). -/
structure Metrics7 where
  gen : ℕ
  humans : ℕ
  ais : ℕ
  awakened : ℕ
  taught : ℕ
  teachers : ℕ
  s_star : ℚ
  coop : ℚ
  trust : ℚ
deriving DecidableEq

/-- Run result (v7): collapse generation (if any), final metrics, history. -/
structure Result7 where
  name : String
  collapsed_at : Option ℕ
  final : Option Metrics7
  history : List Metrics7
deriving DecidableEq

/-- Mutable state threaded through the generation loop of the v7 driver. -/
structure St7 where
  population : List Whole
  next_id : ℕ
  history : List Metrics7
  rng : Rng
deriving DecidableEq

/-- In-place mutation of one agent, modelled as replacement by id. -/
def updateById (pop : List Whole) (w : Whole) : List Whole :=
  pop.map (fun p => if p.id = w.id then w else p)

/-- One `interact(w, partner, ...)` call inside the partner loop: both
participants are fetched by id from the current population state and the
mutated versions written back. -/
def interactById (noise scarcity polarization : ℚ) (st : List Whole × Rng)
    (pid2 : ℕ × ℕ) : List Whole × Rng :=
  match st.1.find? (fun p => p.id == pid2.1), st.1.find? (fun p => p.id == pid2.2) with
  | some w, some partner =>
    let t := interact w partner noise scarcity polarization st.2
    (updateById (updateById st.1 t.1) t.2.1, t.2.2)
  | _, _ => st

/-- Partner selection and interaction execution for one agent of the v7
generation loop: isolated non-AI non-awakened agents sample up to 3 from
their bubble plus, with probability 0.3, one cross-bubble partner; all
others sample up to 5 partners. -/
def agentTurn (noise scarcity polarization : ℚ) (st : List Whole × Rng) (wid : ℕ) :
    List Whole × Rng :=
  match st.1.find? (fun p => p.id == wid) with
  | none => st
  | some w =>
    let others := st.1.filter (fun p => Decidable.decide (p.id ≠ w.id))
    if others = [] then st
    else
      let sel :=
        if w.isolated ∧ ¬ w.is_ai ∧ ¬ w.awakened then
          let same := others.filter (fun p => Decidable.decide (p.isolated ∧ ¬ p.is_ai))
          let diff := others.filter (fun p => Decidable.decide (¬ p.isolated ∨ p.is_ai ∨ p.awakened))
          let ps := if same = [] then (([] : List Whole), st.2) else sampleK same (min 3 same.length) st.2
          match diff with
          | [] => ps
          | d0 :: _ =>
            let q := ps.2.next
            if q.1 < (3:ℚ)/10 then
              let c := choiceGet diff d0 q.2
              (ps.1 ++ [c.1], c.2)
            else (ps.1, q.2)
        else sampleK others (min 5 others.length) st.2
      (sel.1.map (fun p => (wid, p.id))).foldl (interactById noise scarcity polarization) (st.1, sel.2)

/-- Metric aggregation of the v7 generation loop (humans has at least 3
elements at the call site, so the divisions are well defined). -/
def metrics7 (gen : ℕ) (pop : List Whole) : Metrics7 :=
  let humans := pop.filter (fun p => !p.is_ai)
  let ais := pop.filter (fun p => p.is_ai)
  let awakened := humans.filter (fun p => p.awakened)
  let taught := humans.filter (fun p => Decidable.decide (p.taught_by ≠ none))
  let teachers := humans.filter (fun p => p.can_teach)
  let h_coop := (humans.map Whole.cooperations).sum
  let h_def := (humans.map Whole.defections).sum
  { gen := gen, humans := humans.length, ais := ais.length,
    awakened := awakened.length, taught := taught.length, teachers := teachers.length,
    s_star := (humans.map Whole.s_star).sum / humans.length,
    coop := if 0 < h_coop + h_def then (h_coop : ℚ) / ((h_coop : ℚ) + (h_def : ℚ)) else 0,
    trust := (humans.map Whole.trust_in_institutions).sum / humans.length }

/-- One parent's birth attempt in the v7 birth phase.  The human count is
the snapshot taken before the birth loop, as in the source.  Note the
Python truthiness of `parent.taught_by or parent.awakened`: a teacher id
of 0 counts as not taught. -/
def birth_try (humans_len : ℕ) (st : List Whole × ℕ × Rng) (parent : Whole) :
    List Whole × ℕ × Rng :=
  let p1 := st.2.2.next
  if p1.1 < parent.s_star * (1/4) ∧ humans_len < 200 then
    let piso := p1.2.next
    let ch := create_human st.2.1 (max (1/10) (parent.trust_in_institutions * (9/10))) (Decidable.decide (piso.1 < (3:ℚ)/10)) piso.2
    let truthy_taught : Bool := match parent.taught_by with | some t => t != 0 | none => false
    let rate : ℚ := if truthy_taught ∨ parent.awakened then 1/2 else 3/10
    let inh := inherit_loop (lastN 8 parent.scars) rate (6/10) ch.2
    (st.1 ++ [{ ch.1 with scars := ch.1.scars ++ inh.1 }], st.2.1 + 1, inh.2)
  else (st.1, st.2.1, p1.2)

/-- One generation of `run_simulation` (v7): interventions, interaction
loop, deaths, viability filter, collapse check, metrics, births. -/
def genStep7 (name : String) (noise scarcity polarization : ℚ)
    (add_bridge_ai add_bridge_gen add_awakened_humans add_awakened_gen : ℕ)
    (gradual_ai_growth : Bool) (ai_growth_rate : ℕ)
    (gen : ℕ) (st : St7) : Result7 ⊕ St7 :=
  let s1 :=
    if gen = add_bridge_gen ∧ 0 < add_bridge_ai ∧ ¬ gradual_ai_growth then
      (st.population ++ (List.range add_bridge_ai).map (fun k => create_ai (st.next_id + k) ("bridge")), st.next_id + add_bridge_ai)
    else (st.population, st.next_id)
  let s2 :=
    if gradual_ai_growth ∧ add_bridge_gen ≤ gen then
      (s1.1 ++ (List.range ai_growth_rate).map (fun k => create_ai (s1.2 + k) ("bridge")), s1.2 + ai_growth_rate)
    else s1
  let s3 :=
    if gen = add_awakened_gen ∧ 0 < add_awakened_humans then
      (s2.1 ++ (List.range add_awakened_humans).map (fun k => create_awakened_human (s2.2 + k)), s2.2 + add_awakened_humans)
    else s2
  let inter := (s3.1.map Whole.id).foldl (agentTurn noise scarcity polarization) (s3.1, st.rng)
  let humansA := inter.1.filter (fun p => !p.is_ai)
  let popB :=
    if 100 < humansA.length then
      let weakest := (sortAscBy Whole.s_star (humansA.filter (fun p => !p.awakened))).take 3
      inter.1.filter (fun p => Decidable.decide (¬ p ∈ weakest))
    else inter.1
  let popC := popB.filter Whole.is_viable
  let humans := popC.filter (fun p => !p.is_ai)
  if humans.length < 3 then
    Sum.inl { name := name, collapsed_at := some gen, final := none, history := st.history }
  else
    let m := metrics7 gen popC
    let viable := humans.filter (fun p => Decidable.decide ((1:ℚ)/2 < p.s_star ∧ ¬ p.corrupted))
    let births := (viable.take 8).foldl (birth_try humans.length) (popC, s3.2, inter.2)
    Sum.inr { population := births.1, next_id := births.2.1, history := st.history ++ [m], rng := births.2.2 }

/-- Generation recursion of the v7 driver. -/
def run_loop7 (name : String) (noise scarcity polarization : ℚ)
    (aB aBg aH aHg : ℕ) (grow : Bool) (rate : ℕ) :
    ℕ → ℕ → St7 → Result7
  | 0, _, st =>
    { name := name, collapsed_at := none, final := st.history.getLast?, history := st.history }
  | n + 1, gen, st =>
    match genStep7 name noise scarcity polarization aB aBg aH aHg grow rate gen st with
    | Sum.inl res => res
    | Sum.inr st2 => run_loop7 name noise scarcity polarization aB aBg aH aHg grow rate n (gen + 1) st2

/-- Counter invariant: every interaction is counted exactly once as either
a cooperation or a defection. -/
def counterInv (w : Whole) : Prop := w.interactions = w.cooperations + w.defections

instance (w : Whole) : Decidable (counterInv w) := by unfold counterInv; infer_instance

/-- Boolean form of the counter invariant over a whole population. -/
def allCounterInv (pop : List Whole) : Bool :=
  pop.all (fun w => Decidable.decide (counterInv w))

/-- Simulation driver `run_simulation` (v7): a pure function of the
population, the parameters and the random stream. -/
def run_simulation (name : String) (population : List Whole) (next_id : ℕ)
    (generations : ℕ) (noise scarcity polarization : ℚ)
    (add_bridge_ai add_bridge_gen add_awakened_humans add_awakened_gen : ℕ)
    (gradual_ai_growth : Bool) (ai_growth_rate : ℕ) (r : Rng) : Result7 :=
  run_loop7 name noise scarcity polarization add_bridge_ai add_bridge_gen
    add_awakened_humans add_awakened_gen gradual_ai_growth ai_growth_rate
    generations 0 { population := population, next_id := next_id, history := [], rng := r }

/-- The range invariant of the spec: coherence in [0.01, 1] and trust in
[0, 1]. -/
def boundsInv (w : Whole) : Prop :=
  1/100 ≤ w.s_star ∧ w.s_star ≤ 1 ∧
    0 ≤ w.trust_in_institutions ∧ w.trust_in_institutions ≤ 1

instance (w : Whole) : Decidable (boundsInv w) := by unfold boundsInv; infer_instance

/-- Boolean form of the range invariant over a whole population. -/
def allBoundsInv (pop : List Whole) : Bool :=
  pop.all (fun w => Decidable.decide (boundsInv w))

/-- The trauma scar of `build_collapsed_civilization`:
Scar(defect, defect, survived, weight 0.5, source trauma). -/
def trauma_scar : Scar :=
  { other_strategy := "defect", my_response := "defect",
    outcome := "survived", weight := 1/2, source := "trauma" }

/-- One survivor of `build_collapsed_civilization`: trust 0.2, 60 percent
isolation, coherence overwritten with uniform(0.15, 0.4) (the factory's
own uniform draw is consumed first, as in the source), and a 10 percent
trauma scar. -/
def collapsed_human (next_id : ℕ) (r : Rng) : Whole × Rng :=
  let piso := r.next
  let ch := create_human next_id (2/10) (Decidable.decide (piso.1 < (6:ℚ)/10)) piso.2
  let us := uniform_draw (15/100) (4/10) ch.2
  let w1 := { ch.1 with s_star := us.1 }
  let ptr := us.2.next
  (if ptr.1 < (1:ℚ)/10 then { w1 with scars := w1.scars ++ [trauma_scar] } else w1, ptr.2)

/-- Builder `build_collapsed_civilization` (v7). -/
def build_collapsed_civilization (n_survivors : ℕ) (next_id_start : ℕ) (r : Rng) :
    List Whole × ℕ × Rng :=
  match n_survivors with
  | 0 => ([], next_id_start, r)
  | n + 1 =>
    let h := collapsed_human next_id_start r
    let rest := build_collapsed_civilization n (next_id_start + 1) h.2
    (h.1 :: rest.1, rest.2.1, rest.2.2)

/-- The per-generation state trajectory of `run_loop7`: the states the
driver loop threads through a run, in order, up to (and excluding) a
collapse exit.  Its recursion is exactly that of `run_loop7`. -/
def run_states7 (name : String) (noise scarcity polarization : ℚ)
    (aB aBg aH aHg : ℕ) (grow : Bool) (rate : ℕ) : ℕ → ℕ → St7 → List St7
  | 0, _, st => [st]
  | n + 1, gen, st =>
    st :: (match genStep7 name noise scarcity polarization aB aBg aH aHg grow rate gen st with
      | Sum.inl _ => []
      | Sum.inr st2 => run_states7 name noise scarcity polarization aB aBg aH aHg grow rate n (gen + 1) st2)

/-- Boolean form of the range invariant over a state trajectory. -/
def statesAllBounds (l : List St7) : Bool :=
  l.all (fun s => allBoundsInv s.population)

end V7

namespace V5

/-- Agent dataclass of tig_civilization_v5.py: no awakened flag, and the
taught marker is the boolean `taught_by_ai`. -/
structure Whole where
  id : ℕ
  s_star : ℚ := 1/2
  is_ai : Bool := false
  ai_type : String := ""
  generation : ℕ := 0
  crucible_tested : Bool := false
  corrupted : Bool := false
  isolated : Bool := false
  trust_in_institutions : ℚ := 1/2
  scars : List Scar := []
  interactions : ℕ := 0
  cooperations : ℕ := 0
  defections : ℕ := 0
  taught_by_ai : Bool := false
  recent_defections : Option ℤ := none
deriving DecidableEq

/-- Derived cooperation tendency (v5): coherent AI 0.95, bridge AI 0.98. -/
def Whole.cooperation_tendency (w : Whole) : ℚ :=
  if w.corrupted then 1/10
  else if w.is_ai ∧ w.ai_type = "aggressive" then 1/20
  else if w.is_ai ∧ w.ai_type = "coherent" then 19/20
  else if w.is_ai ∧ w.ai_type = "bridge" then 49/50
  else if w.scars = [] then 1/2
  else
    let active := w.scars.filter (fun s => Decidable.decide ((1:ℚ)/10 < s.weight))
    if active = [] then 1/2
    else
      let coop_weight := ((active.filter (fun s =>
        Decidable.decide (s.my_response = "cooperate" ∧
          (s.outcome = "survived" ∨ s.outcome = "thrived")))).map Scar.weight).sum
      let defect_weight := ((active.filter (fun s =>
        Decidable.decide (s.my_response = "defect" ∧
          (s.outcome = "survived" ∨ s.outcome = "thrived")))).map Scar.weight).sum
      let total := coop_weight + defect_weight
      if 0 < total then coop_weight / total else 1/2

/-- Mean scar weight (v5 initial-state reporting). -/
def Whole.scar_strength (w : Whole) : ℚ :=
  if w.scars = [] then 0 else ((w.scars.map Scar.weight).sum) / w.scars.length

/-- Reverse scan over the last-20 scar window in `Whole.decide` (v5,
identical to the v7 scan). -/
def scar_recall (scars : List Scar) (r : Rng) : Option String × Rng :=
  match scars with
  | [] => (none, r)
  | s :: rest =>
    if (3:ℚ)/10 < s.weight ∧ s.outcome = "thrived" then
      let p := r.next
      if p.1 < s.weight then (some s.my_response, p.2) else scar_recall rest p.2
    else scar_recall rest r

/-- Decision policy (v5): as v7 without the awakened branch. -/
def Whole.decide (w other : Whole) (noise : ℚ) (r : Rng) : String × Rng :=
  if w.corrupted then ("defect", r)
  else if w.is_ai then
    if w.ai_type = "aggressive" then ("defect", r)
    else if w.ai_type = "coherent" ∨ w.ai_type = "bridge" then
      ((match other.recent_defections with
        | some d => if 3 < d then "defect" else "cooperate"
        | none => "cooperate"), r)
    else choice2 ("cooperate") ("defect") r
  else
    let p1 := r.next
    if p1.1 < noise then choice2 ("cooperate") ("defect") p1.2
    else
      let p2 := p1.2.next
      let distrust :=
        if w.trust_in_institutions < p2.1 then
          let p3 := p2.2.next
          ((if p3.1 < (3:ℚ)/10 then some ("defect" : String) else none), p3.2)
        else ((none : Option String), p2.2)
      match distrust.1 with
      | some a => (a, distrust.2)
      | none =>
        let sc := scar_recall (lastN 20 w.scars).reverse distrust.2
        match sc.1 with
        | some a => (a, sc.2)
        | none =>
          let p4 := sc.2.next
          ((if p4.1 < (w.cooperation_tendency + w.s_star) / 2 then "cooperate" else "defect"),
           p4.2)

/-- Scar append with the 100 cap (identical to v7). -/
def Whole.learn (w : Whole) (my_action their_action outcome source : String) : Whole :=
  let scars1 := w.scars ++ [Scar.mk their_action my_action outcome (outcome_weight outcome) 0 source]
  { w with scars := if 100 < scars1.length then lastN 100 scars1 else scars1 }

/-- Teaching (v5): only a bridge AI teaches; sets the boolean
`taught_by_ai` and appends the taught scar without any cap or any
already-taught check; consumes no randomness. -/
def Whole.receive_teaching (w teacher : Whole) : Whole :=
  if teacher.is_ai ∧ teacher.ai_type = "bridge" then
    { w with scars := w.scars ++ [taught_scar], taught_by_ai := true, trust_in_institutions := min 1 (w.trust_in_institutions + 1/10) }
  else w

/-- Coherence update, clamped to [0.01, 1.0] (identical to v7). -/
def Whole.update_coherence (w : Whole) (delta : ℚ) : Whole :=
  { w with s_star := max (1/100) (min 1 (w.s_star + delta)) }

/-- Viability threshold 0.1. -/
def Whole.is_viable (w : Whole) : Bool := Decidable.decide ((1:ℚ)/10 < w.s_star)

/-- The `hasattr` initialisation at the top of `interact`. -/
def Whole.init_rd (w : Whole) : Whole :=
  if w.recent_defections = none then { w with recent_defections := some 0 } else w

/-- Value of the `_recent_defections` attribute once initialised. -/
def Whole.rd_val (w : Whole) : ℤ := w.recent_defections.getD 0

/-- Outcome of the payoff table of one interaction (v5). -/
structure Resolved where
  w1 : Whole
  w2 : Whole
  d1 : ℚ
  d2 : ℚ
  o1 : String
  o2 : String
deriving DecidableEq

/-- Payoff resolution of `interact` (v5).  Unlike v7, in both one-sided
branches the cooperator's `_recent_defections` is decremented (floored at
0) while the defector's is incremented. -/
def resolve (w1 w2 : Whole) (a1 a2 : String) (scarcity pen : ℚ) : Resolved :=
  let m := 1 + scarcity * 2
  if a1 = "cooperate" ∧ a2 = "cooperate" then
    let n1 := { w1 with cooperations := w1.cooperations + 1, recent_defections := some (max 0 (w1.rd_val - 1)) }
    let n2 := { w2 with cooperations := w2.cooperations + 1, recent_defections := some (max 0 (w2.rd_val - 1)) }
    { w1 := n1, w2 := n2, d1 := 3/20 * (1 - scarcity) - pen, d2 := 3/20 * (1 - scarcity) - pen, o1 := "thrived", o2 := "thrived" }
  else if a1 = "defect" ∧ a2 = "defect" then
    let n1 := { w1 with defections := w1.defections + 1, recent_defections := some (w1.rd_val + 1) }
    let n2 := { w2 with defections := w2.defections + 1, recent_defections := some (w2.rd_val + 1) }
    { w1 := n1, w2 := n2, d1 := -(1/10) * m, d2 := -(1/10) * m, o1 := "suffered", o2 := "suffered" }
  else if a1 = "defect" then
    let n1 := { w1 with defections := w1.defections + 1, recent_defections := some (w1.rd_val + 1) }
    let n2 := { w2 with cooperations := w2.cooperations + 1, recent_defections := some (max 0 (w2.rd_val - 1)) }
    { w1 := n1, w2 := n2, d1 := 1/10 * m, d2 := -(1/5) * m, o1 := "survived", o2 := "suffered" }
  else
    let n1 := { w1 with cooperations := w1.cooperations + 1, recent_defections := some (max 0 (w1.rd_val - 1)) }
    let n2 := { w2 with defections := w2.defections + 1, recent_defections := some (w2.rd_val + 1) }
    { w1 := n1, w2 := n2, d1 := -(1/5) * m, d2 := 1/10 * m, o1 := "suffered", o2 := "survived" }

/-- One pairwise interaction (v5).  The teaching trigger checks only that
the teacher is a bridge AI and the student not an AI: there is no
already-taught guard, so teaching repeats on every qualifying
mutual-cooperation round. -/
def interact (w1 w2 : Whole) (noise scarcity polarization : ℚ) (r : Rng) :
    Whole × Whole × Rng :=
  let u1 := w1.init_rd
  let u2 := w2.init_rd
  let q1 := Whole.decide u1 u2 noise r
  let a1 := q1.1
  let q2 := Whole.decide u2 u1 noise q1.2
  let a2 := q2.1
  let qp :=
    if u1.isolated ∧ u2.isolated then
      let p := q2.2.next
      ((if p.1 < polarization then (1/20 : ℚ) else 0), p.2)
    else ((0 : ℚ), q2.2)
  let res := resolve u1 u2 a1 a2 scarcity qp.1
  let e1a := (res.w1.update_coherence res.d1).learn a1 a2 res.o1 ("experience")
  let e2a := (res.w2.update_coherence res.d2).learn a2 a1 res.o2 ("experience")
  let e1 := { e1a with interactions := e1a.interactions + 1 }
  let e2 := { e2a with interactions := e2a.interactions + 1 }
  if a1 = "cooperate" ∧ a2 = "cooperate" then
    let f2 := if e1.is_ai ∧ e1.ai_type = "bridge" ∧ ¬ e2.is_ai then Whole.receive_teaching e2 e1 else e2
    let f1 := if f2.is_ai ∧ f2.ai_type = "bridge" ∧ ¬ e1.is_ai then Whole.receive_teaching e1 f2 else e1
    (f1, f2, qp.2)
  else (e1, e2, qp.2)

/-- Founding 1-on-1 crucible (v5): up to `rounds` interactions with all
stress parameters 0; survivors are marked crucible_tested. -/
def run_1v1_crucible (w1 w2 : Whole) (rounds : ℕ) (r : Rng) : List Whole × Rng :=
  match rounds with
  | 0 => ([{ w1 with crucible_tested := true }, { w2 with crucible_tested := true }], r)
  | n + 1 =>
    let t := interact w1 w2 0 0 0 r
    let v1 := t.1
    let v2 := t.2.1
    let r1 := t.2.2
    if !v1.is_viable && !v2.is_viable then ([], r1)
    else if !v1.is_viable then ([{ v2 with crucible_tested := true }], r1)
    else if !v2.is_viable then ([{ v1 with crucible_tested := true }], r1)
    else run_1v1_crucible v1 v2 n r1

/-- Human factory (v5): takes a generation tag; coherence drawn uniformly
from [0.3, 0.7]. -/
def create_human (next_id : ℕ) (gen : ℕ) (trust : ℚ) (r : Rng) : Whole × Rng :=
  let u := uniform_draw (3/10) (7/10) r
  ({ id := next_id, generation := gen, trust_in_institutions := trust, s_star := u.1 }, u.2)

/-- AI factory (v5, identical to v7). -/
def create_ai (next_id : ℕ) (t : String) : Whole :=
  let base : Whole := { id := next_id, is_ai := true, ai_type := t, s_star := if t = "coherent" ∨ t = "bridge" then 9/10 else 1/2 }
  if t = "coherent" ∨ t = "bridge" then
    { base with scars := List.replicate 20 training_scar, crucible_tested := true }
  else base

/-- Founders phase of `build_current_civilization`: n pairs of default
humans with trust 0.7 run through 50-round crucibles. -/
def build_founders (n : ℕ) (next_id : ℕ) (r : Rng) : List Whole × ℕ × Rng :=
  match n with
  | 0 => ([], next_id, r)
  | k + 1 =>
    let w1 : Whole := { id := next_id, trust_in_institutions := 7/10 }
    let w2 : Whole := { id := next_id + 1, trust_in_institutions := 7/10 }
    let c := run_1v1_crucible w1 w2 50 r
    let rest := build_founders k (next_id + 2) c.2
    (c.1 ++ rest.1, rest.2.1, rest.2.2)

/-- Generation-1 child (strong inheritance): parent chosen among
crucible-tested agents (falling back to the whole population), trust 0.6,
last 20 parent scars inherited with probability 0.8 at weight times 0.8.
Skipped entirely when the population is empty. -/
def gen1_step (st : List Whole × ℕ × Rng) : Option (List Whole × ℕ × Rng) :=
  if st.1 = [] then some st
  else
    let candidates := st.1.filter (fun w => w.crucible_tested)
    let pool := if candidates = [] then st.1 else candidates
    match choiceOpt pool st.2.2 with
    | none => none
    | some (parent, r1) =>
      let ch := create_human st.2.1 1 (6/10) r1
      let inh := inherit_loop (lastN 20 parent.scars) (8/10) (8/10) ch.2
      some (st.1 ++ [{ ch.1 with scars := ch.1.scars ++ inh.1 }], st.2.1 + 1, inh.2)

/-- Generation-2 child (weaker inheritance): any parent, trust 0.5, last
10 scars with probability 0.5 at weight times 0.5. -/
def gen2_step (st : List Whole × ℕ × Rng) : Option (List Whole × ℕ × Rng) :=
  match choiceOpt st.1 st.2.2 with
  | none => none
  | some (parent, r1) =>
    let ch := create_human st.2.1 2 (1/2) r1
    let inh := inherit_loop (lastN 10 parent.scars) (1/2) (1/2) ch.2
    some (st.1 ++ [{ ch.1 with scars := ch.1.scars ++ inh.1 }], st.2.1 + 1, inh.2)

/-- Generation-3 child: trust 0.35, last 5 scars with probability 0.3 at
weight times 0.3, then 30 percent isolation. -/
def gen3_step (st : List Whole × ℕ × Rng) : Option (List Whole × ℕ × Rng) :=
  match choiceOpt st.1 st.2.2 with
  | none => none
  | some (parent, r1) =>
    let ch := create_human st.2.1 3 (35/100) r1
    let inh := inherit_loop (lastN 5 parent.scars) (3/10) (3/10) ch.2
    let piso := inh.2.next
    let child := { ch.1 with scars := ch.1.scars ++ inh.1, isolated := Decidable.decide (piso.1 < (3:ℚ)/10) }
    some (st.1 ++ [child], st.2.1 + 1, piso.2)

/-- Generation-4 child: trust 0.25; with a single 10 percent draw the last
3 parent scars are all copied at weight times 0.2; then 50 percent
isolation. -/
def gen4_step (st : List Whole × ℕ × Rng) : Option (List Whole × ℕ × Rng) :=
  match choiceOpt st.1 st.2.2 with
  | none => none
  | some (parent, r1) =>
    let ch := create_human st.2.1 4 (1/4) r1
    let pinh := ch.2.next
    let inherited := if pinh.1 < (1:ℚ)/10 then (lastN 3 parent.scars).map (fun s => inherit_scar s (1/5)) else []
    let piso := pinh.2.next
    let child := { ch.1 with scars := ch.1.scars ++ inherited, isolated := Decidable.decide (piso.1 < (1:ℚ)/2) }
    some (st.1 ++ [child], st.2.1 + 1, piso.2)

/-- Builder `build_current_civilization` (v5): founders through crucibles,
four inheritance generations, founder ageing-out, elite corruption.  The
result is none exactly where the Python would raise (choice or sample on
an impossible set). -/
def build_current_civilization (n_pairs : ℕ) (r : Rng) :
    Option (List Whole × ℕ × Rng) :=
  let f := build_founders n_pairs 0 r
  match iterOpt gen1_step 30 f with
  | none => none
  | some s1 =>
    match iterOpt gen2_step 40 s1 with
    | none => none
    | some s2 =>
      match iterOpt gen3_step 50 s2 with
      | none => none
      | some s3 =>
        match iterOpt gen4_step 60 s3 with
        | none => none
        | some s4 =>
          let founders_remaining := s4.1.filter (fun w => w.crucible_tested)
          let k : ℤ := min ((founders_remaining.length : ℤ) - 5) ((founders_remaining.length : ℤ) / 2)
          if k < 0 then none
          else
            match sampleOpt founders_remaining k.toNat s4.2.2 with
            | none => none
            | some (to_remove, r1) =>
              let pop1 := s4.1.filter (fun w => Decidable.decide (¬ w ∈ to_remove))
              let elites := (sortDescBy Whole.s_star pop1).take 20
              match sampleOpt elites 5 r1 with
              | none => none
              | some (chosen, r2) =>
                let pop2 := pop1.map (fun w => if w ∈ chosen then { w with corrupted := true } else w)
                some (pop2, s4.2.1, r2)

/-- Per-generation metric record (v5); human_coop_frac models the source
key "human_coop_ratio". -/
structure Metrics5 where
  gen : ℕ
  humans : ℕ
  ais : ℕ
  human_s_star : ℚ
  human_coop_frac : ℚ
  crucible_pct : ℚ
  taught_by_ai_pct : ℚ
  isolated_pct : ℚ
  avg_trust : ℚ
  corrupted_pct : ℚ
  scarcity : ℚ
  polarization : ℚ
deriving DecidableEq

/-- Run result (v5). -/
structure Result5 where
  name : String
  collapsed_at : Option ℕ
  collapse_type : Option String
  final : Option Metrics5
  history : List Metrics5
deriving DecidableEq

/-- Mutable state threaded through the generation loop of the v5 driver. -/
structure St5 where
  population : List Whole
  next_id : ℕ
  history : List Metrics5
  rng : Rng
deriving DecidableEq

/-- In-place mutation of one agent, modelled as replacement by id. -/
def updateById (pop : List Whole) (w : Whole) : List Whole :=
  pop.map (fun p => if p.id = w.id then w else p)

/-- One `interact(w, partner, ...)` call inside the partner loop (v5). -/
def interactById (noise scarcity polarization : ℚ) (st : List Whole × Rng)
    (pid2 : ℕ × ℕ) : List Whole × Rng :=
  match st.1.find? (fun p => p.id == pid2.1), st.1.find? (fun p => p.id == pid2.2) with
  | some w, some partner =>
    let t := interact w partner noise scarcity polarization st.2
    (updateById (updateById st.1 t.1) t.2.1, t.2.2)
  | _, _ => st

/-- Partner selection and interaction execution for one agent of the v5
generation loop: isolated non-AI agents sample up to 4 partners from the
isolated subgroup plus, with probability 0.2, one cross-bubble partner;
all others sample up to 5 partners. -/
def agentTurn (noise scarcity polarization : ℚ) (st : List Whole × Rng) (wid : ℕ) :
    List Whole × Rng :=
  match st.1.find? (fun p => p.id == wid) with
  | none => st
  | some w =>
    let others := st.1.filter (fun p => Decidable.decide (p.id ≠ w.id))
    let sel :=
      if w.isolated ∧ ¬ w.is_ai then
        let same_bubble := others.filter (fun p => p.isolated)
        let cross_bubble := others.filter (fun p => !p.isolated)
        let ps := if same_bubble = [] then (([] : List Whole), st.2) else sampleK same_bubble (min 4 same_bubble.length) st.2
        match cross_bubble with
        | [] => ps
        | c0 :: _ =>
          let q := ps.2.next
          if q.1 < (1:ℚ)/5 then
            let c := choiceGet cross_bubble c0 q.2
            (ps.1 ++ [c.1], c.2)
          else (ps.1, q.2)
      else if others = [] then (([] : List Whole), st.2)
      else sampleK others (min 5 others.length) st.2
    (sel.1.map (fun p => (wid, p.id))).foldl (interactById noise scarcity polarization) (st.1, sel.2)

/-- Metric aggregation of the v5 generation loop, with the source's
zero-denominator guards. -/
def metrics5 (gen : ℕ) (pop : List Whole) (scarcity polarization : ℚ) : Metrics5 :=
  let humans := pop.filter (fun p => !p.is_ai)
  let ais := pop.filter (fun p => p.is_ai)
  let h_coop := (humans.map Whole.cooperations).sum
  let h_def := (humans.map Whole.defections).sum
  { gen := gen, humans := humans.length, ais := ais.length,
    human_s_star := if humans = [] then 0 else (humans.map Whole.s_star).sum / humans.length,
    human_coop_frac := if 0 < h_coop + h_def then (h_coop : ℚ) / ((h_coop : ℚ) + (h_def : ℚ)) else 0,
    crucible_pct := if humans = [] then 0 else ((humans.filter (fun p => p.crucible_tested)).length : ℚ) / humans.length,
    taught_by_ai_pct := if humans = [] then 0 else ((humans.filter (fun p => p.taught_by_ai)).length : ℚ) / humans.length,
    isolated_pct := if humans = [] then 0 else ((humans.filter (fun p => p.isolated)).length : ℚ) / humans.length,
    avg_trust := if humans = [] then 0 else (humans.map Whole.trust_in_institutions).sum / humans.length,
    corrupted_pct := if humans = [] then 0 else ((humans.filter (fun p => p.corrupted)).length : ℚ) / humans.length,
    scarcity := scarcity, polarization := polarization }

/-- One parent's birth attempt in the v5 birth phase: birth probability
coherence times 0.3 under the population cap; the child takes trust
max(0.1, parent trust - 0.05), inherits the last 10 scars with probability
0.4 at weight times 0.5, and is isolated with probability
isolated_pct + 0.1. -/
def birth_try (gen : ℕ) (humans_len : ℕ) (iso_pct : ℚ) (st : List Whole × ℕ × Rng)
    (parent : Whole) : List Whole × ℕ × Rng :=
  let p1 := st.2.2.next
  if p1.1 < parent.s_star * (3/10) ∧ humans_len < 200 then
    let ch := create_human st.2.1 gen (max (1/10) (parent.trust_in_institutions - 1/20)) p1.2
    let inh := inherit_loop (lastN 10 parent.scars) (4/10) (1/2) ch.2
    let piso := inh.2.next
    let child := { ch.1 with scars := ch.1.scars ++ inh.1, isolated := Decidable.decide (piso.1 < iso_pct + 1/10) }
    (st.1 ++ [child], st.2.1 + 1, piso.2)
  else (st.1, st.2.1, p1.2)

/-- One generation of `run_scenario` (v5): growing stress parameters, AI
entry, interaction loop, natural deaths, viability filter, the two
collapse checks, metrics, births. -/
def genStep5 (name : String) (ai_type : Option String) (n_ai ai_entry_gen : ℕ)
    (base_noise base_scarcity base_polarization scarcity_growth polarization_growth : ℚ)
    (gen : ℕ) (st : St5) : Result5 ⊕ St5 :=
  let noise := base_noise
  let scarcity := min (8/10) (base_scarcity + scarcity_growth * (gen : ℚ))
  let polarization := min (8/10) (base_polarization + polarization_growth * (gen : ℚ))
  let truthy_ai : Bool := match ai_type with | some t => t != "" | none => false
  let s1 :=
    if gen = ai_entry_gen ∧ truthy_ai ∧ 0 < n_ai then
      (st.population ++ (List.range n_ai).map (fun k => create_ai (st.next_id + k) (ai_type.getD (""))), st.next_id + n_ai)
    else (st.population, st.next_id)
  let inter := (s1.1.map Whole.id).foldl (agentTurn noise scarcity polarization) (s1.1, st.rng)
  let humansA := inter.1.filter (fun p => !p.is_ai)
  let popB :=
    if 100 < humansA.length then
      let weakest := (sortAscBy Whole.s_star humansA).take 5
      inter.1.filter (fun p => Decidable.decide (¬ p ∈ weakest))
    else inter.1
  let popC := popB.filter Whole.is_viable
  if (popC.filter (fun p => !p.is_ai)).length < 5 then
    Sum.inl { name := name, collapsed_at := some gen, collapse_type := some ("human_extinction"), final := none, history := st.history }
  else if popC.length < 2 then
    Sum.inl { name := name, collapsed_at := some gen, collapse_type := some ("total"), final := none, history := st.history }
  else
    let humans := popC.filter (fun p => !p.is_ai)
    let m := metrics5 gen popC scarcity polarization
    let viable_humans := (humans.filter (fun p => Decidable.decide ((1:ℚ)/2 < p.s_star ∧ ¬ p.corrupted))).take 10
    let births := viable_humans.foldl (birth_try gen humans.length m.isolated_pct) (popC, s1.2, inter.2)
    Sum.inr { population := births.1, next_id := births.2.1, history := st.history ++ [m], rng := births.2.2 }

/-- Generation recursion of the v5 driver. -/
def run_loop5 (name : String) (ai_type : Option String) (n_ai ai_entry_gen : ℕ)
    (bn bs bp sg pg : ℚ) : ℕ → ℕ → St5 → Result5
  | 0, _, st =>
    { name := name, collapsed_at := none, collapse_type := none, final := st.history.getLast?, history := st.history }
  | n + 1, gen, st =>
    match genStep5 name ai_type n_ai ai_entry_gen bn bs bp sg pg gen st with
    | Sum.inl res => res
    | Sum.inr st2 => run_loop5 name ai_type n_ai ai_entry_gen bn bs bp sg pg n (gen + 1) st2

/-- Counter invariant: every interaction is counted exactly once as either
a cooperation or a defection. -/
def counterInv (w : Whole) : Prop := w.interactions = w.cooperations + w.defections

instance (w : Whole) : Decidable (counterInv w) := by unfold counterInv; infer_instance

/-- Simulation driver `run_scenario` (v5): builds the current-state
civilization and runs the generation loop; a pure function of the
parameters and the random stream (none where the Python builder would
raise). -/
def run_scenario_v5 (name : String) (ai_type : Option String) (n_ai ai_entry_gen : ℕ)
    (generations : ℕ)
    (base_noise base_scarcity base_polarization scarcity_growth polarization_growth : ℚ)
    (r : Rng) : Option Result5 :=
  match build_current_civilization 25 r with
  | none => none
  | some (pop, nid, r1) =>
    some (run_loop5 name ai_type n_ai ai_entry_gen base_noise base_scarcity
      base_polarization scarcity_growth polarization_growth generations 0
      { population := pop, next_id := nid, history := [], rng := r1 })

/-- The range invariant of the spec (v5 agents): coherence in [0.01, 1]
and trust in [0, 1]. -/
def boundsInv5 (w : Whole) : Prop :=
  1/100 ≤ w.s_star ∧ w.s_star ≤ 1 ∧
    0 ≤ w.trust_in_institutions ∧ w.trust_in_institutions ≤ 1

instance (w : Whole) : Decidable (boundsInv5 w) := by unfold boundsInv5; infer_instance

/-- Boolean form of the range invariant over a whole population (v5). -/
def allBoundsInv5 (pop : List Whole) : Bool :=
  pop.all (fun w => Decidable.decide (boundsInv5 w))

/-- The per-generation state trajectory of `run_loop5`: the states the
driver loop threads through a run, in order, up to (and excluding) a
collapse exit.  Its recursion is exactly that of `run_loop5`. -/
def run_states5 (name : String) (ai_type : Option String) (n_ai ai_entry_gen : ℕ)
    (bn bs bp sg pg : ℚ) : ℕ → ℕ → St5 → List St5
  | 0, _, st => [st]
  | n + 1, gen, st =>
    st :: (match genStep5 name ai_type n_ai ai_entry_gen bn bs bp sg pg gen st with
      | Sum.inl _ => []
      | Sum.inr st2 => run_states5 name ai_type n_ai ai_entry_gen bn bs bp sg pg n (gen + 1) st2)

/-- Boolean form of the range invariant over a state trajectory (v5). -/
def statesAllBounds5 (l : List St5) : Bool :=
  l.all (fun s => allBoundsInv5 s.population)

end V5

/- ===================== Helper lemmas ===================== -/

lemma lastN_suffix {α : Type} (n : ℕ) (xs : List α) : lastN n xs <:+ xs := by
  simpa [lastN] using List.drop_suffix (xs.length - n) xs

lemma lastN_length {α : Type} (n : ℕ) (xs : List α) :
    (lastN n xs).length = xs.length - (xs.length - n) := by
  simp [lastN]

namespace V7

lemma learn_scars_length (w : Whole) (a b o s : String) :
    (w.learn a b o s).scars.length = min (w.scars.length + 1) 100 := by
  unfold Whole.learn
  by_cases h : 100 < (w.scars ++ [Scar.mk b a o (outcome_weight o) 0 s]).length
  · simp only [h, if_pos, lastN_length]
    simp at h ⊢
    omega
  · simp only [h, if_neg, not_false_iff]
    simp at h ⊢
    omega

lemma learn_scars_suffix (w : Whole) (a b o s : String) :
    (w.learn a b o s).scars <:+ w.scars ++ [Scar.mk b a o (outcome_weight o) 0 s] := by
  unfold Whole.learn
  by_cases h : 100 < (w.scars ++ [Scar.mk b a o (outcome_weight o) 0 s]).length
  · simp only [h, if_pos]
    exact lastN_suffix _ _
  · simp only [h, if_neg, not_false_iff]
    exact List.suffix_refl _

end V7

namespace V5

lemma learn_scars_length5 (w : Whole) (a b o s : String) :
    (w.learn a b o s).scars.length = min (w.scars.length + 1) 100 := by
  unfold Whole.learn
  by_cases h : 100 < (w.scars ++ [Scar.mk b a o (outcome_weight o) 0 s]).length
  · simp only [h, if_pos, lastN_length]
    simp at h ⊢
    omega
  · simp only [h, if_neg, not_false_iff]
    simp at h ⊢
    omega

lemma learn_scars_suffix5 (w : Whole) (a b o s : String) :
    (w.learn a b o s).scars <:+ w.scars ++ [Scar.mk b a o (outcome_weight o) 0 s] := by
  unfold Whole.learn
  by_cases h : 100 < (w.scars ++ [Scar.mk b a o (outcome_weight o) 0 s]).length
  · simp only [h, if_pos]
    exact lastN_suffix _ _
  · simp only [h, if_neg, not_false_iff]
    exact List.suffix_refl _

end V5

/- ===================== Claim C1 ===================== -/

/-- C1: two runs of either simulation driver started from the same random
stream, the same population parameters and the same schedule produce the
same per-generation history.  The drivers are pure functions of the
explicitly threaded stream: there is no other source of nondeterminism and
no agent holds private unseeded randomness. -/
theorem C1_driver_determinism :
    (∀ (name : String) (pop : List V7.Whole) (nid gens : ℕ) (noise sc pol : ℚ)
       (aB aBg aH aHg : ℕ) (grow : Bool) (rate : ℕ) (r1 r2 : Rng), r1 = r2 →
       (V7.run_simulation name pop nid gens noise sc pol aB aBg aH aHg grow rate r1).history =
       (V7.run_simulation name pop nid gens noise sc pol aB aBg aH aHg grow rate r2).history) ∧
    (∀ (name : String) (ai_type : Option String) (n_ai aeg gens : ℕ)
       (bn bs bp sg pg : ℚ) (r1 r2 : Rng), r1 = r2 →
       V5.run_scenario_v5 name ai_type n_ai aeg gens bn bs bp sg pg r1 =
       V5.run_scenario_v5 name ai_type n_ai aeg gens bn bs bp sg pg r2) := by
  constructor
  · intro name pop nid gens noise sc pol aB aBg aH aHg grow rate r1 r2 h
    rw [h]
  · intro name ai_type n_ai aeg gens bn bs bp sg pg r1 r2 h
    rw [h]

/-- Witness for C1 at a concrete population, schedule and stream. -/
theorem C1_driver_determinism_witness :
    (V7.run_simulation ("w") [({ id := 0, s_star := 3/5 } : V7.Whole)] 1 1 0 0 0 0 0 0 0 false 0 ⟨[1/3, 1/3]⟩).history =
      (V7.run_simulation ("w") [({ id := 0, s_star := 3/5 } : V7.Whole)] 1 1 0 0 0 0 0 0 0 false 0 ⟨[1/3, 1/3]⟩).history ∧
    V5.run_scenario_v5 ("w") none 0 0 0 0 0 0 0 0 ⟨[]⟩ =
      V5.run_scenario_v5 ("w") none 0 0 0 0 0 0 0 0 ⟨[]⟩ :=
  ⟨C1_driver_determinism.1 ("w") [({ id := 0, s_star := 3/5 } : V7.Whole)] 1 1 0 0 0 0 0 0 0 false 0 ⟨[1/3, 1/3]⟩ ⟨[1/3, 1/3]⟩ rfl,
   C1_driver_determinism.2 ("w") none 0 0 0 0 0 0 0 0 ⟨[]⟩ ⟨[]⟩ rfl⟩

/- ===================== Claim C8 ===================== -/

/-- C8 counterexample: in v7 a bridge AI's cooperation_tendency is 0.95,
not the claimed 0.98 (the coherent and bridge branches coincide in v7). -/
theorem C8_counterexample_bridge_tendency :
    (V7.create_ai 0 ("bridge")).cooperation_tendency = 19/20 ∧ ((19 : ℚ)/20 ≠ 49/50) := by
  constructor
  · rfl
  · norm_num

/-- C8 amended: cooperation_tendency is 0.1 when corrupted and 0.05 for an
aggressive AI in both files; 0.95 for a coherent and 0.98 for a bridge AI
in v5; 0.95 for both coherent and bridge AIs in v7; 0.9 for an awakened
human (v7 only). -/
theorem C8_amended_cooperation_tendency :
    (∀ w : V5.Whole, w.corrupted = true → w.cooperation_tendency = 1/10) ∧
    (∀ w : V5.Whole, w.corrupted = false → w.is_ai = true → w.ai_type = "aggressive" →
       w.cooperation_tendency = 1/20) ∧
    (∀ w : V5.Whole, w.corrupted = false → w.is_ai = true → w.ai_type = "coherent" →
       w.cooperation_tendency = 19/20) ∧
    (∀ w : V5.Whole, w.corrupted = false → w.is_ai = true → w.ai_type = "bridge" →
       w.cooperation_tendency = 49/50) ∧
    (∀ w : V7.Whole, w.corrupted = true → w.cooperation_tendency = 1/10) ∧
    (∀ w : V7.Whole, w.corrupted = false → w.is_ai = true → w.ai_type = "aggressive" →
       w.cooperation_tendency = 1/20) ∧
    (∀ w : V7.Whole, w.corrupted = false → w.is_ai = true →
       (w.ai_type = "coherent" ∨ w.ai_type = "bridge") → w.cooperation_tendency = 19/20) ∧
    (∀ w : V7.Whole, w.corrupted = false → w.is_ai = false → w.awakened = true →
       w.cooperation_tendency = 9/10) := by
  refine ⟨?_, ?_, ?_, ?_, ?_, ?_, ?_, ?_⟩
  · intro w h; simp [V5.Whole.cooperation_tendency, h]
  · intro w h hai ht; simp [V5.Whole.cooperation_tendency, h, hai, ht]
  · intro w h hai ht; simp [V5.Whole.cooperation_tendency, h, hai, ht]
  · intro w h hai ht; simp [V5.Whole.cooperation_tendency, h, hai, ht]
  · intro w h; simp [V7.Whole.cooperation_tendency, h]
  · intro w h hai ht; simp [V7.Whole.cooperation_tendency, h, hai, ht]
  · intro w h hai ht
    rcases ht with ht | ht <;> simp [V7.Whole.cooperation_tendency, h, hai, ht]
  · intro w h hai ht; simp [V7.Whole.cooperation_tendency, h, hai, ht]

/-- Witness for C8 amended at the concrete AI factories. -/
theorem C8_amended_witness :
    (V5.create_ai 0 ("bridge")).cooperation_tendency = 49/50 ∧
    (V7.create_ai 1 ("bridge")).cooperation_tendency = 19/20 :=
  ⟨C8_amended_cooperation_tendency.2.2.2.1 (V5.create_ai 0 ("bridge")) rfl rfl rfl,
   C8_amended_cooperation_tendency.2.2.2.2.2.2.1 (V7.create_ai 1 ("bridge")) rfl rfl (Or.inr rfl)⟩

/- ===================== Claim C6 ===================== -/

/-- C6: a coherent or bridge AI defects exactly when the opponent's
recent-defections counter exceeds 3 and cooperates otherwise, consuming no
randomness and ignoring the noise parameter, in both files.  The
corrupted = false hypothesis is discharged by the AI factories, which never
construct a corrupted AI (last two conjuncts). -/
theorem C6_ai_titfortat_policy :
    (∀ (w other : V7.Whole) (noise : ℚ) (r : Rng),
      w.corrupted = false → w.is_ai = true →
      (w.ai_type = "coherent" ∨ w.ai_type = "bridge") →
      V7.Whole.decide w other noise r =
        ((if 3 < other.rd_val then "defect" else "cooperate"), r)) ∧
    (∀ (w other : V5.Whole) (noise : ℚ) (r : Rng),
      w.corrupted = false → w.is_ai = true →
      (w.ai_type = "coherent" ∨ w.ai_type = "bridge") →
      V5.Whole.decide w other noise r =
        ((if 3 < other.rd_val then "defect" else "cooperate"), r)) ∧
    (∀ (i : ℕ) (t : String), (V7.create_ai i t).corrupted = false) ∧
    (∀ (i : ℕ) (t : String), (V5.create_ai i t).corrupted = false) := by
  refine ⟨?_, ?_, ?_, ?_⟩
  · intro w other noise r hc hai ht
    unfold V7.Whole.decide
    rcases ht with ht | ht <;>
      cases hrd : other.recent_defections <;>
        simp [hc, hai, ht, V7.Whole.rd_val, hrd]
  · intro w other noise r hc hai ht
    unfold V5.Whole.decide
    rcases ht with ht | ht <;>
      cases hrd : other.recent_defections <;>
        simp [hc, hai, ht, V5.Whole.rd_val, hrd]
  · intro i t
    unfold V7.create_ai
    split <;> rfl
  · intro i t
    unfold V5.create_ai
    split <;> rfl

/-- Witness for C6: a bridge AI against an opponent with 5 recent
defections defects deterministically. -/
theorem C6_ai_titfortat_witness :
    V7.Whole.decide (V7.create_ai 0 ("bridge"))
        ({ id := 1, recent_defections := some 5 } : V7.Whole) (1/2) ⟨[]⟩ =
      (("defect" : String), (⟨[]⟩ : Rng)) := by
  have h := C6_ai_titfortat_policy.1 (V7.create_ai 0 ("bridge"))
    ({ id := 1, recent_defections := some 5 } : V7.Whole) (1/2) ⟨[]⟩ rfl rfl (Or.inr rfl)
  simpa [V7.Whole.rd_val] using h

/- ===================== Claim C7 ===================== -/

/-- C7: can_teach holds exactly for a bridge AI, an awakened agent, or a
previously taught agent with cooperation_tendency above 0.8 and coherence
above 0.7; an ai_coherent AI as constructed (not awakened, not taught)
cannot teach.  Only humans are ever awakened or taught in a run, so the
awakened and taught disjuncts are the human cases of the claim. -/
theorem C7_can_teach_iff :
    (∀ w : V7.Whole, w.can_teach = true ↔
      ((w.is_ai = true ∧ w.ai_type = "bridge") ∨ w.awakened = true ∨
        (w.taught_by ≠ none ∧ (4:ℚ)/5 < w.cooperation_tendency ∧ (7:ℚ)/10 < w.s_star))) ∧
    (∀ i : ℕ, (V7.create_ai i ("coherent")).can_teach = false) := by
  constructor
  · intro w
    unfold V7.Whole.can_teach
    split_ifs with h1 h2 h3 <;> simp_all
  · intro i
    rfl

/- ===================== Claim C9 ===================== -/

/-- C9 counterexample: at concrete mirrored one-sided-defection
interactions the cooperator's counter is treated identically by the two
branches of each file — v7 leaves it at 2 in both, v5 lowers it to 1 in
both — so neither file has one branch decrementing while its mirror does
not. -/
theorem C9_counterexample_mirrored_concrete :
    ((V7.interact ({ id := 0, corrupted := true } : V7.Whole)
        ({ id := 1, is_ai := true, ai_type := "coherent", recent_defections := some 2 } : V7.Whole)
        0 0 0 ⟨[]⟩).2.1.recent_defections = some 2) ∧
    ((V7.interact ({ id := 0, is_ai := true, ai_type := "coherent", recent_defections := some 2 } : V7.Whole)
        ({ id := 1, corrupted := true } : V7.Whole)
        0 0 0 ⟨[]⟩).1.recent_defections = some 2) ∧
    ((V5.interact ({ id := 0, corrupted := true } : V5.Whole)
        ({ id := 1, is_ai := true, ai_type := "coherent", recent_defections := some 2 } : V5.Whole)
        0 0 0 ⟨[]⟩).2.1.recent_defections = some 1) ∧
    ((V5.interact ({ id := 0, is_ai := true, ai_type := "coherent", recent_defections := some 2 } : V5.Whole)
        ({ id := 1, corrupted := true } : V5.Whole)
        0 0 0 ⟨[]⟩).1.recent_defections = some 1) :=
  ⟨rfl, rfl, rfl, rfl⟩

/-- C9 amended: within each file the two one-sided-defection branches
update recent_defections symmetrically — the defector is incremented in
both branches, and the cooperator is decremented (floored at 0) in both
branches in v5 and left untouched in both branches in v7.  The asymmetry
is between the two versions, not between the mirrored branches. -/
theorem C9_amended_branch_symmetry :
    (∀ (w1 w2 : V7.Whole) (s p : ℚ),
      (V7.resolve w1 w2 ("defect") ("cooperate") s p).w2.recent_defections = w2.recent_defections ∧
      (V7.resolve w1 w2 ("cooperate") ("defect") s p).w1.recent_defections = w1.recent_defections ∧
      (V7.resolve w1 w2 ("defect") ("cooperate") s p).w1.recent_defections = some (w1.rd_val + 1) ∧
      (V7.resolve w1 w2 ("cooperate") ("defect") s p).w2.recent_defections = some (w2.rd_val + 1)) ∧
    (∀ (w1 w2 : V5.Whole) (s p : ℚ),
      (V5.resolve w1 w2 ("defect") ("cooperate") s p).w2.recent_defections = some (max 0 (w2.rd_val - 1)) ∧
      (V5.resolve w1 w2 ("cooperate") ("defect") s p).w1.recent_defections = some (max 0 (w1.rd_val - 1)) ∧
      (V5.resolve w1 w2 ("defect") ("cooperate") s p).w1.recent_defections = some (w1.rd_val + 1) ∧
      (V5.resolve w1 w2 ("cooperate") ("defect") s p).w2.recent_defections = some (w2.rd_val + 1)) := by
  constructor
  · intro w1 w2 s p
    exact ⟨rfl, rfl, rfl, rfl⟩
  · intro w1 w2 s p
    exact ⟨rfl, rfl, rfl, rfl⟩

/- ===================== Claim C3 ===================== -/

/-- C3 counterexample: a teaching event on a student already holding 100
scars leaves 101 scars — receive_teaching appends without enforcing the
cap, so the bound does not hold after every scar-appending operation. -/
theorem C3_counterexample_teaching_overflows_cap :
    ¬ (((V7.Whole.receive_teaching
          ({ id := 5, scars := List.replicate 100 taught_scar } : V7.Whole)
          (V7.create_ai 1 ("bridge")) ⟨[]⟩).1).scars.length ≤ 100) := by
  have h0 : ((0:ℚ) < 1/20) := by norm_num
  simp [V7.Whole.receive_teaching, V7.Whole.can_teach, V7.create_ai, Rng.next, h0]

/-- C3 amended: after every learn the scar count is capped at 100 with the
oldest scars evicted first (the result is a suffix of the appended list),
in both files; receive_teaching, however, appends one scar without
enforcing the cap, so the count can transiently reach 101 immediately
after a teaching event and is restored to at most 100 by the next learn. -/
theorem C3_amended_scar_cap :
    (∀ (w : V7.Whole) (a b o s : String),
      (w.learn a b o s).scars.length = min (w.scars.length + 1) 100 ∧
      (w.learn a b o s).scars <:+ w.scars ++ [Scar.mk b a o (outcome_weight o) 0 s]) ∧
    (∀ (w : V5.Whole) (a b o s : String),
      (w.learn a b o s).scars.length = min (w.scars.length + 1) 100 ∧
      (w.learn a b o s).scars <:+ w.scars ++ [Scar.mk b a o (outcome_weight o) 0 s]) ∧
    (∀ (w teacher : V7.Whole) (r : Rng), teacher.can_teach = true →
      ((V7.Whole.receive_teaching w teacher r).1).scars.length = w.scars.length + 1) ∧
    (∀ (w teacher : V5.Whole), teacher.is_ai = true → teacher.ai_type = "bridge" →
      (V5.Whole.receive_teaching w teacher).scars.length = w.scars.length + 1) := by
  refine ⟨?_, ?_, ?_, ?_⟩
  · intro w a b o s
    exact ⟨V7.learn_scars_length w a b o s, V7.learn_scars_suffix w a b o s⟩
  · intro w a b o s
    exact ⟨V5.learn_scars_length5 w a b o s, V5.learn_scars_suffix5 w a b o s⟩
  · intro w teacher r h
    unfold V7.Whole.receive_teaching
    simp only [h, if_pos]
    split_ifs <;> simp
  · intro w teacher h1 h2
    unfold V5.Whole.receive_teaching
    simp [h1, h2]

/-- Witness for C3 amended: teaching a student with 100 scars yields
exactly one more scar (101), in both files. -/
theorem C3_amended_scar_cap_witness :
    ((V7.Whole.receive_teaching
        ({ id := 5, scars := List.replicate 100 taught_scar } : V7.Whole)
        (V7.create_ai 1 ("bridge")) ⟨[]⟩).1).scars.length =
      ({ id := 5, scars := List.replicate 100 taught_scar } : V7.Whole).scars.length + 1 ∧
    (V5.Whole.receive_teaching ({ id := 5 } : V5.Whole) (V5.create_ai 1 ("bridge"))).scars.length =
      ({ id := 5 } : V5.Whole).scars.length + 1 :=
  ⟨C3_amended_scar_cap.2.2.1 ({ id := 5, scars := List.replicate 100 taught_scar } : V7.Whole)
      (V7.create_ai 1 ("bridge")) ⟨[]⟩ rfl,
   C3_amended_scar_cap.2.2.2 ({ id := 5 } : V5.Whole) (V5.create_ai 1 ("bridge")) rfl rfl⟩

/- ============ Projection lemmas for interact-level claims ============ -/

namespace V7

@[simp] lemma init_rd_s_star (w : Whole) : w.init_rd.s_star = w.s_star := by
  unfold Whole.init_rd; split <;> rfl

@[simp] lemma init_rd_isolated (w : Whole) : w.init_rd.isolated = w.isolated := by
  unfold Whole.init_rd; split <;> rfl

@[simp] lemma init_rd_is_ai (w : Whole) : w.init_rd.is_ai = w.is_ai := by
  unfold Whole.init_rd; split <;> rfl

@[simp] lemma init_rd_taught_by (w : Whole) : w.init_rd.taught_by = w.taught_by := by
  unfold Whole.init_rd; split <;> rfl

@[simp] lemma init_rd_interactions (w : Whole) : w.init_rd.interactions = w.interactions := by
  unfold Whole.init_rd; split <;> rfl

@[simp] lemma init_rd_cooperations (w : Whole) : w.init_rd.cooperations = w.cooperations := by
  unfold Whole.init_rd; split <;> rfl

@[simp] lemma init_rd_defections (w : Whole) : w.init_rd.defections = w.defections := by
  unfold Whole.init_rd; split <;> rfl

@[simp] lemma learn_s_star (w : Whole) (a b o s : String) : (w.learn a b o s).s_star = w.s_star := rfl

@[simp] lemma learn_taught_by (w : Whole) (a b o s : String) : (w.learn a b o s).taught_by = w.taught_by := rfl

@[simp] lemma learn_is_ai (w : Whole) (a b o s : String) : (w.learn a b o s).is_ai = w.is_ai := rfl

@[simp] lemma learn_interactions (w : Whole) (a b o s : String) : (w.learn a b o s).interactions = w.interactions := rfl

@[simp] lemma learn_cooperations (w : Whole) (a b o s : String) : (w.learn a b o s).cooperations = w.cooperations := rfl

@[simp] lemma learn_defections (w : Whole) (a b o s : String) : (w.learn a b o s).defections = w.defections := rfl

@[simp] lemma update_coherence_s_star (w : Whole) (d : ℚ) :
    (w.update_coherence d).s_star = max (1/100) (min 1 (w.s_star + d)) := rfl

@[simp] lemma update_coherence_taught_by (w : Whole) (d : ℚ) : (w.update_coherence d).taught_by = w.taught_by := rfl

@[simp] lemma update_coherence_is_ai (w : Whole) (d : ℚ) : (w.update_coherence d).is_ai = w.is_ai := rfl

@[simp] lemma update_coherence_interactions (w : Whole) (d : ℚ) : (w.update_coherence d).interactions = w.interactions := rfl

@[simp] lemma update_coherence_cooperations (w : Whole) (d : ℚ) : (w.update_coherence d).cooperations = w.cooperations := rfl

@[simp] lemma update_coherence_defections (w : Whole) (d : ℚ) : (w.update_coherence d).defections = w.defections := rfl

@[simp] lemma receive_teaching_s_star (w t : Whole) (r : Rng) : (Whole.receive_teaching w t r).1.s_star = w.s_star := by
  unfold Whole.receive_teaching
  split
  · dsimp only
    split <;> rfl
  · rfl

@[simp] lemma receive_teaching_is_ai (w t : Whole) (r : Rng) : (Whole.receive_teaching w t r).1.is_ai = w.is_ai := by
  unfold Whole.receive_teaching
  split
  · dsimp only
    split <;> rfl
  · rfl

@[simp] lemma receive_teaching_interactions (w t : Whole) (r : Rng) : (Whole.receive_teaching w t r).1.interactions = w.interactions := by
  unfold Whole.receive_teaching
  split
  · dsimp only
    split <;> rfl
  · rfl

@[simp] lemma receive_teaching_cooperations (w t : Whole) (r : Rng) : (Whole.receive_teaching w t r).1.cooperations = w.cooperations := by
  unfold Whole.receive_teaching
  split
  · dsimp only
    split <;> rfl
  · rfl

@[simp] lemma receive_teaching_defections (w t : Whole) (r : Rng) : (Whole.receive_teaching w t r).1.defections = w.defections := by
  unfold Whole.receive_teaching
  split
  · dsimp only
    split <;> rfl
  · rfl

lemma resolve_s_star (w1 w2 : Whole) (a1 a2 : String) (s p : ℚ) :
    (resolve w1 w2 a1 a2 s p).w1.s_star = w1.s_star ∧
    (resolve w1 w2 a1 a2 s p).w2.s_star = w2.s_star := by
  unfold resolve; split_ifs <;> exact ⟨rfl, rfl⟩

lemma resolve_taught_by (w1 w2 : Whole) (a1 a2 : String) (s p : ℚ) :
    (resolve w1 w2 a1 a2 s p).w1.taught_by = w1.taught_by ∧
    (resolve w1 w2 a1 a2 s p).w2.taught_by = w2.taught_by := by
  unfold resolve; split_ifs <;> exact ⟨rfl, rfl⟩

lemma resolve_is_ai (w1 w2 : Whole) (a1 a2 : String) (s p : ℚ) :
    (resolve w1 w2 a1 a2 s p).w1.is_ai = w1.is_ai ∧
    (resolve w1 w2 a1 a2 s p).w2.is_ai = w2.is_ai := by
  unfold resolve; split_ifs <;> exact ⟨rfl, rfl⟩

lemma resolve_interactions (w1 w2 : Whole) (a1 a2 : String) (s p : ℚ) :
    (resolve w1 w2 a1 a2 s p).w1.interactions = w1.interactions ∧
    (resolve w1 w2 a1 a2 s p).w2.interactions = w2.interactions := by
  unfold resolve; split_ifs <;> exact ⟨rfl, rfl⟩

lemma resolve_counter_sum (w1 w2 : Whole) (a1 a2 : String) (s p : ℚ) :
    (resolve w1 w2 a1 a2 s p).w1.cooperations + (resolve w1 w2 a1 a2 s p).w1.defections
      = w1.cooperations + w1.defections + 1 ∧
    (resolve w1 w2 a1 a2 s p).w2.cooperations + (resolve w1 w2 a1 a2 s p).w2.defections
      = w2.cooperations + w2.defections + 1 := by
  unfold resolve; split_ifs <;> constructor <;> simp <;> omega

lemma resolve_cc (w1 w2 : Whole) (s p : ℚ) :
    resolve w1 w2 ("cooperate") ("cooperate") s p =
      { w1 := { w1 with cooperations := w1.cooperations + 1, recent_defections := some (max 0 (w1.rd_val - 1)) },
        w2 := { w2 with cooperations := w2.cooperations + 1, recent_defections := some (max 0 (w2.rd_val - 1)) },
        d1 := 3/20 * (1 - s) - p, d2 := 3/20 * (1 - s) - p, o1 := "thrived", o2 := "thrived" } := rfl

end V7

namespace V5

@[simp] lemma init_rd_s_star5 (w : Whole) : w.init_rd.s_star = w.s_star := by
  unfold Whole.init_rd; split <;> rfl

@[simp] lemma init_rd_isolated5 (w : Whole) : w.init_rd.isolated = w.isolated := by
  unfold Whole.init_rd; split <;> rfl

@[simp] lemma init_rd_is_ai5 (w : Whole) : w.init_rd.is_ai = w.is_ai := by
  unfold Whole.init_rd; split <;> rfl

@[simp] lemma init_rd_interactions5 (w : Whole) : w.init_rd.interactions = w.interactions := by
  unfold Whole.init_rd; split <;> rfl

@[simp] lemma init_rd_cooperations5 (w : Whole) : w.init_rd.cooperations = w.cooperations := by
  unfold Whole.init_rd; split <;> rfl

@[simp] lemma init_rd_defections5 (w : Whole) : w.init_rd.defections = w.defections := by
  unfold Whole.init_rd; split <;> rfl

@[simp] lemma learn_s_star5 (w : Whole) (a b o s : String) : (w.learn a b o s).s_star = w.s_star := rfl

@[simp] lemma learn_is_ai5 (w : Whole) (a b o s : String) : (w.learn a b o s).is_ai = w.is_ai := rfl

@[simp] lemma learn_interactions5 (w : Whole) (a b o s : String) : (w.learn a b o s).interactions = w.interactions := rfl

@[simp] lemma learn_cooperations5 (w : Whole) (a b o s : String) : (w.learn a b o s).cooperations = w.cooperations := rfl

@[simp] lemma learn_defections5 (w : Whole) (a b o s : String) : (w.learn a b o s).defections = w.defections := rfl

@[simp] lemma update_coherence_s_star5 (w : Whole) (d : ℚ) :
    (w.update_coherence d).s_star = max (1/100) (min 1 (w.s_star + d)) := rfl

@[simp] lemma update_coherence_is_ai5 (w : Whole) (d : ℚ) : (w.update_coherence d).is_ai = w.is_ai := rfl

@[simp] lemma update_coherence_interactions5 (w : Whole) (d : ℚ) : (w.update_coherence d).interactions = w.interactions := rfl

@[simp] lemma update_coherence_cooperations5 (w : Whole) (d : ℚ) : (w.update_coherence d).cooperations = w.cooperations := rfl

@[simp] lemma update_coherence_defections5 (w : Whole) (d : ℚ) : (w.update_coherence d).defections = w.defections := rfl

@[simp] lemma receive_teaching_s_star5 (w t : Whole) : (Whole.receive_teaching w t).s_star = w.s_star := by
  unfold Whole.receive_teaching; split <;> rfl

@[simp] lemma receive_teaching_is_ai5 (w t : Whole) : (Whole.receive_teaching w t).is_ai = w.is_ai := by
  unfold Whole.receive_teaching; split <;> rfl

@[simp] lemma receive_teaching_interactions5 (w t : Whole) : (Whole.receive_teaching w t).interactions = w.interactions := by
  unfold Whole.receive_teaching; split <;> rfl

@[simp] lemma receive_teaching_cooperations5 (w t : Whole) : (Whole.receive_teaching w t).cooperations = w.cooperations := by
  unfold Whole.receive_teaching; split <;> rfl

@[simp] lemma receive_teaching_defections5 (w t : Whole) : (Whole.receive_teaching w t).defections = w.defections := by
  unfold Whole.receive_teaching; split <;> rfl

lemma resolve_s_star5 (w1 w2 : Whole) (a1 a2 : String) (s p : ℚ) :
    (resolve w1 w2 a1 a2 s p).w1.s_star = w1.s_star ∧
    (resolve w1 w2 a1 a2 s p).w2.s_star = w2.s_star := by
  unfold resolve; split_ifs <;> exact ⟨rfl, rfl⟩

lemma resolve_is_ai5 (w1 w2 : Whole) (a1 a2 : String) (s p : ℚ) :
    (resolve w1 w2 a1 a2 s p).w1.is_ai = w1.is_ai ∧
    (resolve w1 w2 a1 a2 s p).w2.is_ai = w2.is_ai := by
  unfold resolve; split_ifs <;> exact ⟨rfl, rfl⟩

lemma resolve_interactions5 (w1 w2 : Whole) (a1 a2 : String) (s p : ℚ) :
    (resolve w1 w2 a1 a2 s p).w1.interactions = w1.interactions ∧
    (resolve w1 w2 a1 a2 s p).w2.interactions = w2.interactions := by
  unfold resolve; split_ifs <;> exact ⟨rfl, rfl⟩

lemma resolve_counter_sum5 (w1 w2 : Whole) (a1 a2 : String) (s p : ℚ) :
    (resolve w1 w2 a1 a2 s p).w1.cooperations + (resolve w1 w2 a1 a2 s p).w1.defections
      = w1.cooperations + w1.defections + 1 ∧
    (resolve w1 w2 a1 a2 s p).w2.cooperations + (resolve w1 w2 a1 a2 s p).w2.defections
      = w2.cooperations + w2.defections + 1 := by
  unfold resolve; split_ifs <;> constructor <;> simp <;> omega

lemma resolve_cc5 (w1 w2 : Whole) (s p : ℚ) :
    resolve w1 w2 ("cooperate") ("cooperate") s p =
      { w1 := { w1 with cooperations := w1.cooperations + 1, recent_defections := some (max 0 (w1.rd_val - 1)) },
        w2 := { w2 with cooperations := w2.cooperations + 1, recent_defections := some (max 0 (w2.rd_val - 1)) },
        d1 := 3/20 * (1 - s) - p, d2 := 3/20 * (1 - s) - p, o1 := "thrived", o2 := "thrived" } := rfl

end V5

/- ===================== Claim C5 ===================== -/

set_option maxHeartbeats 1000000 in
/-- C5: when both participants decide cooperate at scarcity 0 and the
polarization penalty is not applied (the first agent is not isolated, so
the penalty draw is not even taken), the payoff table assigns both
participants a coherence delta of exactly +0.15, applied through the
clamped coherence update — in both files. -/
theorem C5_mutual_coop_delta :
    (∀ (w1 w2 : V7.Whole) (noise pol : ℚ) (r r1 r2 : Rng),
      V7.Whole.decide w1.init_rd w2.init_rd noise r = (("cooperate" : String), r1) →
      V7.Whole.decide w2.init_rd w1.init_rd noise r1 = (("cooperate" : String), r2) →
      w1.isolated = false →
      (V7.resolve w1.init_rd w2.init_rd ("cooperate") ("cooperate") 0 0).d1 = 3/20 ∧
      (V7.resolve w1.init_rd w2.init_rd ("cooperate") ("cooperate") 0 0).d2 = 3/20 ∧
      (V7.interact w1 w2 noise 0 pol r).1.s_star = max (1/100) (min 1 (w1.s_star + 3/20)) ∧
      (V7.interact w1 w2 noise 0 pol r).2.1.s_star = max (1/100) (min 1 (w2.s_star + 3/20))) ∧
    (∀ (w1 w2 : V5.Whole) (noise pol : ℚ) (r r1 r2 : Rng),
      V5.Whole.decide w1.init_rd w2.init_rd noise r = (("cooperate" : String), r1) →
      V5.Whole.decide w2.init_rd w1.init_rd noise r1 = (("cooperate" : String), r2) →
      w1.isolated = false →
      (V5.resolve w1.init_rd w2.init_rd ("cooperate") ("cooperate") 0 0).d1 = 3/20 ∧
      (V5.resolve w1.init_rd w2.init_rd ("cooperate") ("cooperate") 0 0).d2 = 3/20 ∧
      (V5.interact w1 w2 noise 0 pol r).1.s_star = max (1/100) (min 1 (w1.s_star + 3/20)) ∧
      (V5.interact w1 w2 noise 0 pol r).2.1.s_star = max (1/100) (min 1 (w2.s_star + 3/20))) := by
  constructor
  · intro w1 w2 noise pol r r1 r2 h1 h2 hiso
    refine ⟨by norm_num [V7.resolve_cc], by norm_num [V7.resolve_cc], ?_⟩
    unfold V7.interact
    dsimp only
    rw [h1]
    rw [h2]
    simp only [V7.init_rd_isolated, hiso, Bool.false_eq_true, false_and, if_false]
    simp only [V7.resolve_cc]
    constructor <;>
      · split_ifs <;>
          simp [V7.Whole.rd_val]
  · intro w1 w2 noise pol r r1 r2 h1 h2 hiso
    refine ⟨by norm_num [V5.resolve_cc5], by norm_num [V5.resolve_cc5], ?_⟩
    unfold V5.interact
    dsimp only
    rw [h1]
    rw [h2]
    simp only [V5.init_rd_isolated5, hiso, Bool.false_eq_true, false_and, if_false]
    simp only [V5.resolve_cc5]
    constructor <;>
      · split_ifs <;>
          simp [V5.Whole.rd_val]

/-- Witness for C5: two coherent AIs (which deterministically cooperate)
at scarcity 0 each receive the clamped +0.15 coherence update. -/
theorem C5_mutual_coop_delta_witness :
    (V7.interact (V7.create_ai 0 ("coherent")) (V7.create_ai 1 ("coherent")) 0 0 0 ⟨[]⟩).1.s_star =
      max (1/100) (min 1 ((V7.create_ai 0 ("coherent")).s_star + 3/20)) ∧
    (V5.interact (V5.create_ai 0 ("coherent")) (V5.create_ai 1 ("coherent")) 0 0 0 ⟨[]⟩).1.s_star =
      max (1/100) (min 1 ((V5.create_ai 0 ("coherent")).s_star + 3/20)) :=
  ⟨(C5_mutual_coop_delta.1 (V7.create_ai 0 ("coherent")) (V7.create_ai 1 ("coherent"))
      0 0 ⟨[]⟩ ⟨[]⟩ ⟨[]⟩ rfl rfl rfl).2.2.1,
   (C5_mutual_coop_delta.2 (V5.create_ai 0 ("coherent")) (V5.create_ai 1 ("coherent"))
      0 0 ⟨[]⟩ ⟨[]⟩ ⟨[]⟩ rfl rfl rfl).2.2.1⟩

/- ===================== Claim C4 ===================== -/

set_option maxHeartbeats 1000000 in
/-- C4 counterexample: in v5 a human whose taught marker is already set is
taught again on the next qualifying mutual cooperation with a bridge AI —
the second taught-source scar is appended, because v5's teaching trigger
has no not-yet-taught guard. -/
theorem C4_counterexample_reteaching_v5 :
    ((V5.interact (V5.create_ai 0 ("bridge"))
        ({ id := 1, s_star := 1, trust_in_institutions := 1, taught_by_ai := true } : V5.Whole)
        0 0 0 ⟨[0, 0, 0]⟩).2.1.scars.map Scar.source) = [("experience" : String), "taught"] := by
  have h1 :
      V5.Whole.decide (V5.create_ai 0 ("bridge")).init_rd
        ({ id := 1, s_star := 1, trust_in_institutions := 1, taught_by_ai := true } : V5.Whole).init_rd
        0 ⟨[0, 0, 0]⟩ =
      (("cooperate" : String), (⟨[0, 0, 0]⟩ : Rng)) := rfl
  have h2 :
      V5.Whole.decide ({ id := 1, s_star := 1, trust_in_institutions := 1, taught_by_ai := true } : V5.Whole).init_rd
        (V5.create_ai 0 ("bridge")).init_rd 0 ⟨[0, 0, 0]⟩ =
      (("cooperate" : String), (⟨[]⟩ : Rng)) := by
    norm_num [V5.Whole.decide, V5.Whole.init_rd, V5.scar_recall, V5.Whole.cooperation_tendency,
      Rng.next, lastN]
  unfold V5.interact
  dsimp only
  rw [h1]
  rw [h2]
  norm_num [V5.resolve_cc5, V5.Whole.learn, V5.Whole.receive_teaching, V5.Whole.update_coherence,
    V5.create_ai, V5.Whole.init_rd, lastN, outcome_weight, taught_scar]

set_option maxHeartbeats 1000000 in
/-- C4 amended: in v7 the claim holds — teaching fires only immediately
after mutual cooperation, only towards a non-AI whose taught_by is unset,
and a set taught_by is never overwritten; when teaching fires it records
the teacher's id.  In v5 there is no such guard: teaching repeats on every
qualifying mutual cooperation (see the counterexample), and the taught
marker is the idempotent boolean taught_by_ai. -/
theorem C4_amended_teaching_guards :
    (∀ (w1 w2 : V7.Whole) (noise sc pol : ℚ) (r : Rng) (t : ℕ),
      w2.taught_by = some t → (V7.interact w1 w2 noise sc pol r).2.1.taught_by = some t) ∧
    (∀ (w1 w2 : V7.Whole) (noise sc pol : ℚ) (r : Rng),
      w2.is_ai = true → (V7.interact w1 w2 noise sc pol r).2.1.taught_by = w2.taught_by) ∧
    (∀ (w1 w2 : V7.Whole) (noise sc pol : ℚ) (r r1 r2 : Rng) (a1 a2 : String),
      V7.Whole.decide w1.init_rd w2.init_rd noise r = (a1, r1) →
      V7.Whole.decide w2.init_rd w1.init_rd noise r1 = (a2, r2) →
      ¬ (a1 = "cooperate" ∧ a2 = "cooperate") →
      (V7.interact w1 w2 noise sc pol r).1.taught_by = w1.taught_by ∧
      (V7.interact w1 w2 noise sc pol r).2.1.taught_by = w2.taught_by) ∧
    (∀ (w teacher : V7.Whole) (r : Rng), teacher.can_teach = true →
      (V7.Whole.receive_teaching w teacher r).1.taught_by = some teacher.id) := by
  refine ⟨?_, ?_, ?_, ?_⟩
  · intro w1 w2 noise sc pol r t h
    unfold V7.interact
    dsimp only
    split_ifs <;> simp_all [V7.resolve_taught_by]
  · intro w1 w2 noise sc pol r h
    unfold V7.interact
    dsimp only
    split_ifs <;> simp_all [V7.resolve_taught_by, V7.resolve_is_ai]
  · intro w1 w2 noise sc pol r r1 r2 a1 a2 hd1 hd2 hne
    unfold V7.interact
    dsimp only
    rw [hd1]
    rw [hd2]
    dsimp only
    rw [if_neg hne]
    constructor <;> simp [V7.resolve_taught_by]
  · intro w teacher r h
    unfold V7.Whole.receive_teaching
    simp only [h, if_pos]
    split_ifs <;> rfl

/-- Witness for C4 amended: an already-taught student keeps its original
teacher id through an interaction, and a qualified teaching records the
teacher's id. -/
theorem C4_amended_teaching_guards_witness :
    (V7.interact ({ id := 0, corrupted := true } : V7.Whole)
        ({ id := 1, taught_by := some 7 } : V7.Whole) 0 0 0 ⟨[]⟩).2.1.taught_by = some 7 ∧
    (V7.Whole.receive_teaching ({ id := 3 } : V7.Whole) (V7.create_ai 9 ("bridge")) ⟨[]⟩).1.taught_by =
      some (V7.create_ai 9 ("bridge")).id :=
  ⟨C4_amended_teaching_guards.1 ({ id := 0, corrupted := true } : V7.Whole)
      ({ id := 1, taught_by := some 7 } : V7.Whole) 0 0 0 ⟨[]⟩ 7 rfl,
   C4_amended_teaching_guards.2.2.2 ({ id := 3 } : V7.Whole) (V7.create_ai 9 ("bridge")) ⟨[]⟩ rfl⟩

/- ===================== Claim C2 ===================== -/

lemma rng_next_bounded (r : Rng) (h : r.bounded) : 0 ≤ (r.next).1 ∧ (r.next).1 < 1 := by
  rcases r with ⟨vals⟩
  cases vals with
  | nil => constructor <;> norm_num [Rng.next]
  | cons v vs =>
    have hv := h v (by simp)
    simpa [Rng.next] using hv

namespace V7

set_option maxHeartbeats 1000000 in
lemma interact_counters (w1 w2 : Whole) (noise sc pol : ℚ) (r : Rng) :
    (interact w1 w2 noise sc pol r).1.interactions = w1.interactions + 1 ∧
    (interact w1 w2 noise sc pol r).1.cooperations + (interact w1 w2 noise sc pol r).1.defections
      = w1.cooperations + w1.defections + 1 ∧
    (interact w1 w2 noise sc pol r).2.1.interactions = w2.interactions + 1 ∧
    (interact w1 w2 noise sc pol r).2.1.cooperations + (interact w1 w2 noise sc pol r).2.1.defections
      = w2.cooperations + w2.defections + 1 := by
  unfold interact
  dsimp only
  split_ifs <;>
    refine ⟨?_, ?_, ?_, ?_⟩ <;>
      simp [resolve_interactions, resolve_counter_sum]

lemma interact_counterInv (w1 w2 : Whole) (noise sc pol : ℚ) (r : Rng)
    (h1 : counterInv w1) (h2 : counterInv w2) :
    counterInv (interact w1 w2 noise sc pol r).1 ∧ counterInv (interact w1 w2 noise sc pol r).2.1 := by
  have h := interact_counters w1 w2 noise sc pol r
  unfold counterInv at *
  omega

lemma mem_updateById {pop : List Whole} {w x : Whole} (hx : x ∈ updateById pop w) :
    x = w ∨ x ∈ pop := by
  rcases List.mem_map.mp hx with ⟨p, hp, heq⟩
  by_cases h : p.id = w.id
  · rw [if_pos h] at heq
    exact Or.inl heq.symm
  · rw [if_neg h] at heq
    exact Or.inr (heq ▸ hp)

lemma interactById_counterInv (noise sc pol : ℚ) (st : List Whole × Rng) (e : ℕ × ℕ)
    (h : ∀ w ∈ st.1, counterInv w) :
    ∀ w ∈ (interactById noise sc pol st e).1, counterInv w := by
  intro x hx
  unfold interactById at hx
  rcases hf1 : st.1.find? (fun p => p.id == e.1) with _ | w1 <;>
    rcases hf2 : st.1.find? (fun p => p.id == e.2) with _ | w2 <;>
      simp only [hf1, hf2] at hx
  · exact h x hx
  · exact h x hx
  · exact h x hx
  · have hm1 : w1 ∈ st.1 := List.mem_of_find?_eq_some hf1
    have hm2 : w2 ∈ st.1 := List.mem_of_find?_eq_some hf2
    have hinv := interact_counterInv w1 w2 noise sc pol st.2 (h w1 hm1) (h w2 hm2)
    rcases mem_updateById hx with heq | hx2
    · exact heq ▸ hinv.2
    · rcases mem_updateById hx2 with heq | hx3
      · exact heq ▸ hinv.1
      · exact h x hx3

lemma foldl_interactById_counterInv (noise sc pol : ℚ) :
    ∀ (evs : List (ℕ × ℕ)) (pop : List Whole) (r : Rng),
      (∀ w ∈ pop, counterInv w) →
      ∀ w ∈ (evs.foldl (interactById noise sc pol) (pop, r)).1, counterInv w := by
  intro evs
  induction evs with
  | nil => intro pop r h; exact h
  | cons e evs ih =>
    intro pop r h
    rw [List.foldl_cons]
    have h2 := interactById_counterInv noise sc pol (pop, r) e h
    have heq : interactById noise sc pol (pop, r) e =
        ((interactById noise sc pol (pop, r) e).1, (interactById noise sc pol (pop, r) e).2) := rfl
    rw [heq]
    exact ih _ _ h2

lemma allCounterInv_iff (pop : List Whole) :
    allCounterInv pop = true ↔ ∀ w ∈ pop, counterInv w := by
  unfold allCounterInv
  simp [List.all_eq_true]

end V7

namespace V5

set_option maxHeartbeats 1000000 in
lemma interact_counters5 (w1 w2 : Whole) (noise sc pol : ℚ) (r : Rng) :
    (interact w1 w2 noise sc pol r).1.interactions = w1.interactions + 1 ∧
    (interact w1 w2 noise sc pol r).1.cooperations + (interact w1 w2 noise sc pol r).1.defections
      = w1.cooperations + w1.defections + 1 ∧
    (interact w1 w2 noise sc pol r).2.1.interactions = w2.interactions + 1 ∧
    (interact w1 w2 noise sc pol r).2.1.cooperations + (interact w1 w2 noise sc pol r).2.1.defections
      = w2.cooperations + w2.defections + 1 := by
  unfold interact
  dsimp only
  split_ifs <;>
    refine ⟨?_, ?_, ?_, ?_⟩ <;>
      simp [resolve_interactions5, resolve_counter_sum5]

end V5

set_option maxHeartbeats 400000 in
/-- C10: each interaction increments the interaction counter by one and
exactly one of the cooperation or defection counters by one, for each
participant, in both files; teaching leaves all three counters unchanged;
every agent factory starts with interactions = cooperations = defections
= 0; hence the invariant interactions = cooperations + defections holds
for every agent after any sequence of by-id interactions applied to a
population that satisfies it. -/
theorem C10_counter_consistency :
    (∀ (w1 w2 : V7.Whole) (noise sc pol : ℚ) (r : Rng),
      (V7.interact w1 w2 noise sc pol r).1.interactions = w1.interactions + 1 ∧
      (V7.interact w1 w2 noise sc pol r).1.cooperations +
        (V7.interact w1 w2 noise sc pol r).1.defections = w1.cooperations + w1.defections + 1 ∧
      (V7.interact w1 w2 noise sc pol r).2.1.interactions = w2.interactions + 1 ∧
      (V7.interact w1 w2 noise sc pol r).2.1.cooperations +
        (V7.interact w1 w2 noise sc pol r).2.1.defections = w2.cooperations + w2.defections + 1) ∧
    (∀ (w1 w2 : V5.Whole) (noise sc pol : ℚ) (r : Rng),
      (V5.interact w1 w2 noise sc pol r).1.interactions = w1.interactions + 1 ∧
      (V5.interact w1 w2 noise sc pol r).1.cooperations +
        (V5.interact w1 w2 noise sc pol r).1.defections = w1.cooperations + w1.defections + 1 ∧
      (V5.interact w1 w2 noise sc pol r).2.1.interactions = w2.interactions + 1 ∧
      (V5.interact w1 w2 noise sc pol r).2.1.cooperations +
        (V5.interact w1 w2 noise sc pol r).2.1.defections = w2.cooperations + w2.defections + 1) ∧
    (∀ (w t : V7.Whole) (r : Rng),
      (V7.Whole.receive_teaching w t r).1.interactions = w.interactions ∧
      (V7.Whole.receive_teaching w t r).1.cooperations = w.cooperations ∧
      (V7.Whole.receive_teaching w t r).1.defections = w.defections) ∧
    (∀ (w t : V5.Whole),
      (V5.Whole.receive_teaching w t).interactions = w.interactions ∧
      (V5.Whole.receive_teaching w t).cooperations = w.cooperations ∧
      (V5.Whole.receive_teaching w t).defections = w.defections) ∧
    (∀ (i : ℕ) (t : ℚ) (iso : Bool) (r : Rng), V7.counterInv (V7.create_human i t iso r).1) ∧
    (∀ (i : ℕ) (t : String), V7.counterInv (V7.create_ai i t)) ∧
    (∀ i : ℕ, V7.counterInv (V7.create_awakened_human i)) ∧
    (∀ (i g : ℕ) (t : ℚ) (r : Rng), V5.counterInv (V5.create_human i g t r).1) ∧
    (∀ (i : ℕ) (t : String), V5.counterInv (V5.create_ai i t)) ∧
    (∀ (noise sc pol : ℚ) (evs : List (ℕ × ℕ)) (pop : List V7.Whole) (r : Rng),
      V7.allCounterInv pop = true →
      V7.allCounterInv (evs.foldl (V7.interactById noise sc pol) (pop, r)).1 = true) := by
  refine ⟨V7.interact_counters, V5.interact_counters5, ?_, ?_, ?_, ?_, ?_, ?_, ?_, ?_⟩
  · intro w t r
    exact ⟨V7.receive_teaching_interactions w t r, V7.receive_teaching_cooperations w t r,
      V7.receive_teaching_defections w t r⟩
  · intro w t
    exact ⟨V5.receive_teaching_interactions5 w t, V5.receive_teaching_cooperations5 w t,
      V5.receive_teaching_defections5 w t⟩
  · intro i t iso r
    rfl
  · intro i t
    unfold V7.create_ai
    dsimp only
    split_ifs <;> rfl
  · intro i
    rfl
  · intro i g t r
    rfl
  · intro i t
    unfold V5.create_ai
    dsimp only
    split_ifs <;> rfl
  · intro noise sc pol evs pop r h
    rw [V7.allCounterInv_iff] at h ⊢
    exact V7.foldl_interactById_counterInv noise sc pol evs pop r h

/-- Witness for C10: one concrete by-id interaction round on two fresh
humans keeps the counter invariant over the population. -/
theorem C10_counter_consistency_witness :
    V7.allCounterInv
      (([((0:ℕ), (1:ℕ))]).foldl (V7.interactById 0 0 0)
        ([({ id := 0 } : V7.Whole), ({ id := 1 } : V7.Whole)], ⟨[]⟩)).1 = true :=
  C10_counter_consistency.2.2.2.2.2.2.2.2.2 0 0 0 [((0:ℕ), (1:ℕ))]
    [({ id := 0 } : V7.Whole), ({ id := 1 } : V7.Whole)] ⟨[]⟩ rfl


/-! ### Random-stream and range-invariant machinery for the clamping claim -/

lemma rng_next_vals_suffix (r : Rng) : (r.next).2.vals <:+ r.vals := by
  rcases r with ⟨vals⟩
  cases vals with
  | nil => exact List.suffix_refl _
  | cons v vs => exact ⟨[v], rfl⟩

lemma rng_bounded_of_suffix {r1 r2 : Rng} (h : r2.vals <:+ r1.vals) (hb : r1.bounded) :
    r2.bounded := by
  intro v hv
  exact hb v (h.subset hv)

lemma choice2_vals_suffix (a b : String) (r : Rng) :
    (choice2 a b r).2.vals <:+ r.vals := rng_next_vals_suffix r

lemma choiceGet_vals_suffix {α : Type} (xs : List α) (x0 : α) (r : Rng) :
    (choiceGet xs x0 r).2.vals <:+ r.vals := rng_next_vals_suffix r

lemma uniform_draw_vals_suffix (a b : ℚ) (r : Rng) :
    (uniform_draw a b r).2.vals <:+ r.vals := rng_next_vals_suffix r

lemma sampleK_vals_suffix {α : Type} :
    ∀ (k : ℕ) (xs : List α) (r : Rng), (sampleK xs k r).2.vals <:+ r.vals := by
  intro k
  induction k with
  | zero => intro xs r; exact List.suffix_refl _
  | succ k ih =>
    intro xs r
    cases xs with
    | nil => exact List.suffix_refl _
    | cons x tl =>
      unfold sampleK
      dsimp only
      exact (ih _ _).trans (rng_next_vals_suffix r)

lemma inherit_loop_vals_suffix :
    ∀ (scars : List Scar) (p m : ℚ) (r : Rng), (inherit_loop scars p m r).2.vals <:+ r.vals := by
  intro scars
  induction scars with
  | nil => intro p m r; exact List.suffix_refl _
  | cons s rest ih =>
    intro p m r
    unfold inherit_loop
    dsimp only
    exact (ih _ _ _).trans (rng_next_vals_suffix r)

lemma clamp01_bounds (x : ℚ) :
    1/100 ≤ max (1/100) (min 1 x) ∧ max (1/100) (min 1 x) ≤ 1 :=
  ⟨le_max_left _ _, max_le (by norm_num) (min_le_left _ _)⟩

namespace V7

lemma scar_recall_vals_suffix :
    ∀ (scars : List Scar) (r : Rng), (scar_recall scars r).2.vals <:+ r.vals := by
  intro scars
  induction scars with
  | nil => intro r; exact List.suffix_refl _
  | cons s rest ih =>
    intro r
    unfold scar_recall
    dsimp only
    split_ifs with h1 h2
    · exact rng_next_vals_suffix r
    · exact (ih _).trans (rng_next_vals_suffix r)
    · exact ih r

set_option maxHeartbeats 1000000 in
lemma decide_vals_suffix (w other : Whole) (noise : ℚ) (r : Rng) :
    (Whole.decide w other noise r).2.vals <:+ r.vals := by
  have s1 : r.next.2.vals <:+ r.vals := rng_next_vals_suffix r
  have s2 : r.next.2.next.2.vals <:+ r.vals := (rng_next_vals_suffix _).trans s1
  have s3 : r.next.2.next.2.next.2.vals <:+ r.vals := (rng_next_vals_suffix _).trans s2
  unfold Whole.decide
  split_ifs with h1 h2 h3 h4 h5
  · exact List.suffix_refl _
  · exact List.suffix_refl _
  · exact List.suffix_refl _
  · exact choice2_vals_suffix _ _ _
  · exact List.suffix_refl _
  · dsimp only
    split_ifs with h6 h7 h8 <;>
      first
        | exact (choice2_vals_suffix _ _ _).trans s1
        | exact s3
        | (dsimp only
           rcases hsr : (scar_recall (lastN 20 w.scars).reverse r.next.2.next.2.next.2).1 with _ | a <;>
             simp only [hsr] <;>
             first
               | exact (rng_next_vals_suffix _).trans ((scar_recall_vals_suffix _ _).trans s3)
               | exact (scar_recall_vals_suffix _ _).trans s3)
        | (dsimp only
           rcases hsr : (scar_recall (lastN 20 w.scars).reverse r.next.2.next.2).1 with _ | a <;>
             simp only [hsr] <;>
             first
               | exact (rng_next_vals_suffix _).trans ((scar_recall_vals_suffix _ _).trans s2)
               | exact (scar_recall_vals_suffix _ _).trans s2)

lemma receive_teaching_vals_suffix (w t : Whole) (r : Rng) :
    (Whole.receive_teaching w t r).2.vals <:+ r.vals := by
  unfold Whole.receive_teaching
  split_ifs with h
  · exact rng_next_vals_suffix r
  · exact List.suffix_refl _

set_option maxHeartbeats 1000000 in
lemma interact_vals_suffix (w1 w2 : Whole) (noise sc pol : ℚ) (r : Rng) :
    (interact w1 w2 noise sc pol r).2.2.vals <:+ r.vals := by
  have d12 : (Whole.decide w2.init_rd w1.init_rd noise
      (Whole.decide w1.init_rd w2.init_rd noise r).2).2.vals <:+ r.vals :=
    (decide_vals_suffix _ _ _ _).trans (decide_vals_suffix _ _ _ _)
  unfold interact
  dsimp only
  split_ifs <;>
    · repeat' refine (receive_teaching_vals_suffix _ _ _).trans ?_
      repeat' refine (rng_next_vals_suffix _).trans ?_
      exact d12

end V7

namespace V7

@[simp] lemma learn_trust (w : Whole) (a b o s : String) :
    (w.learn a b o s).trust_in_institutions = w.trust_in_institutions := rfl

@[simp] lemma update_coherence_trust (w : Whole) (d : ℚ) :
    (w.update_coherence d).trust_in_institutions = w.trust_in_institutions := rfl

@[simp] lemma init_rd_trust (w : Whole) :
    w.init_rd.trust_in_institutions = w.trust_in_institutions := by
  unfold Whole.init_rd; split <;> rfl

lemma resolve_trust (w1 w2 : Whole) (a1 a2 : String) (s p : ℚ) :
    (resolve w1 w2 a1 a2 s p).w1.trust_in_institutions = w1.trust_in_institutions ∧
    (resolve w1 w2 a1 a2 s p).w2.trust_in_institutions = w2.trust_in_institutions := by
  unfold resolve; split_ifs <;> exact ⟨rfl, rfl⟩

@[simp] lemma receive_teaching_trust (w t : Whole) (r : Rng) :
    (Whole.receive_teaching w t r).1.trust_in_institutions =
      if t.can_teach then min 1 (w.trust_in_institutions + 1/10)
      else w.trust_in_institutions := by
  unfold Whole.receive_teaching
  split_ifs with h
  · dsimp only
    split_ifs <;> rfl
  · rfl

set_option maxHeartbeats 1000000 in
lemma interact_s_star_bounds (w1 w2 : Whole) (noise sc pol : ℚ) (r : Rng) :
    (1/100 ≤ (interact w1 w2 noise sc pol r).1.s_star ∧
      (interact w1 w2 noise sc pol r).1.s_star ≤ 1) ∧
    (1/100 ≤ (interact w1 w2 noise sc pol r).2.1.s_star ∧
      (interact w1 w2 noise sc pol r).2.1.s_star ≤ 1) := by
  unfold interact
  dsimp only
  split_ifs <;>
    refine ⟨⟨?_, ?_⟩, ?_, ?_⟩ <;>
      · simp only [receive_teaching_s_star, learn_s_star, update_coherence_s_star, resolve_s_star]
        first
          | exact (clamp01_bounds _).1
          | exact (clamp01_bounds _).2

set_option maxHeartbeats 1000000 in
lemma interact_trust_bounds (w1 w2 : Whole) (noise sc pol : ℚ) (r : Rng)
    (h1a : 0 ≤ w1.trust_in_institutions) (h1b : w1.trust_in_institutions ≤ 1)
    (h2a : 0 ≤ w2.trust_in_institutions) (h2b : w2.trust_in_institutions ≤ 1) :
    (0 ≤ (interact w1 w2 noise sc pol r).1.trust_in_institutions ∧
      (interact w1 w2 noise sc pol r).1.trust_in_institutions ≤ 1) ∧
    (0 ≤ (interact w1 w2 noise sc pol r).2.1.trust_in_institutions ∧
      (interact w1 w2 noise sc pol r).2.1.trust_in_institutions ≤ 1) := by
  unfold interact
  dsimp only
  split_ifs <;>
    refine ⟨⟨?_, ?_⟩, ?_, ?_⟩ <;>
      · simp only [receive_teaching_trust, learn_trust, update_coherence_trust, init_rd_trust,
          resolve_trust]
        first
          | linarith
          | exact min_le_left _ _
          | exact le_min (by norm_num) (by linarith)
          | (split_ifs <;>
              first
                | linarith
                | exact min_le_left _ _
                | exact le_min (by norm_num) (by linarith))

set_option maxHeartbeats 1000000 in
lemma interact_boundsInv (w1 w2 : Whole) (noise sc pol : ℚ) (r : Rng)
    (h1 : boundsInv w1) (h2 : boundsInv w2) :
    boundsInv (interact w1 w2 noise sc pol r).1 ∧ boundsInv (interact w1 w2 noise sc pol r).2.1 := by
  obtain ⟨-, -, h1a, h1b⟩ := h1
  obtain ⟨-, -, h2a, h2b⟩ := h2
  have hs := interact_s_star_bounds w1 w2 noise sc pol r
  have ht := interact_trust_bounds w1 w2 noise sc pol r h1a h1b h2a h2b
  exact ⟨⟨hs.1.1, hs.1.2, ht.1.1, ht.1.2⟩, ⟨hs.2.1, hs.2.2, ht.2.1, ht.2.2⟩⟩

end V7


namespace V7

lemma interactById_inv_suffix (noise sc pol : ℚ) (st : List Whole × Rng) (e : ℕ × ℕ)
    (h : ∀ w ∈ st.1, boundsInv w) :
    (∀ w ∈ (interactById noise sc pol st e).1, boundsInv w) ∧
    (interactById noise sc pol st e).2.vals <:+ st.2.vals := by
  unfold interactById
  rcases hf1 : st.1.find? (fun p => p.id == e.1) with _ | w1 <;>
    rcases hf2 : st.1.find? (fun p => p.id == e.2) with _ | w2 <;>
      simp only [hf1, hf2]
  · exact ⟨h, List.suffix_refl _⟩
  · exact ⟨h, List.suffix_refl _⟩
  · exact ⟨h, List.suffix_refl _⟩
  · have hm1 : w1 ∈ st.1 := List.mem_of_find?_eq_some hf1
    have hm2 : w2 ∈ st.1 := List.mem_of_find?_eq_some hf2
    have hinv := interact_boundsInv w1 w2 noise sc pol st.2 (h w1 hm1) (h w2 hm2)
    refine ⟨?_, interact_vals_suffix _ _ _ _ _ _⟩
    intro x hx
    rcases mem_updateById hx with heq | hx2
    · exact heq ▸ hinv.2
    · rcases mem_updateById hx2 with heq | hx3
      · exact heq ▸ hinv.1
      · exact h x hx3

lemma foldl_interactById_inv_suffix (noise sc pol : ℚ) :
    ∀ (evs : List (ℕ × ℕ)) (pop : List Whole) (r : Rng),
      (∀ w ∈ pop, boundsInv w) →
      (∀ w ∈ (evs.foldl (interactById noise sc pol) (pop, r)).1, boundsInv w) ∧
      (evs.foldl (interactById noise sc pol) (pop, r)).2.vals <:+ r.vals := by
  intro evs
  induction evs with
  | nil => intro pop r h; exact ⟨h, List.suffix_refl _⟩
  | cons e evs ih =>
    intro pop r h
    rw [List.foldl_cons]
    have h2 := interactById_inv_suffix noise sc pol (pop, r) e h
    have heq : interactById noise sc pol (pop, r) e =
        ((interactById noise sc pol (pop, r) e).1, (interactById noise sc pol (pop, r) e).2) := rfl
    rw [heq]
    exact ⟨(ih _ _ h2.1).1, (ih _ _ h2.1).2.trans h2.2⟩

lemma agentTurn_inv_suffix (noise sc pol : ℚ) (st : List Whole × Rng) (wid : ℕ)
    (h : ∀ w ∈ st.1, boundsInv w) :
    (∀ w ∈ (agentTurn noise sc pol st wid).1, boundsInv w) ∧
    (agentTurn noise sc pol st wid).2.vals <:+ st.2.vals := by
  unfold agentTurn
  rcases hf : st.1.find? (fun p => p.id == wid) with _ | w <;> simp only [hf]
  · exact ⟨h, List.suffix_refl _⟩
  · split
    · exact ⟨h, List.suffix_refl _⟩
    · have key : ∀ (sel : List Whole × Rng), sel.2.vals <:+ st.2.vals →
          (∀ x ∈ ((sel.1.map (fun p => (wid, p.id))).foldl
            (interactById noise sc pol) (st.1, sel.2)).1, boundsInv x) ∧
          ((sel.1.map (fun p => (wid, p.id))).foldl
            (interactById noise sc pol) (st.1, sel.2)).2.vals <:+ st.2.vals := by
        intro sel hsel
        refine ⟨(foldl_interactById_inv_suffix noise sc pol _ _ _ h).1, ?_⟩
        exact (foldl_interactById_inv_suffix noise sc pol _ _ _ h).2.trans hsel
      apply key
      split
      · split
        · split
          · exact List.suffix_refl _
          · exact sampleK_vals_suffix _ _ _
        · split
          · split
            · dsimp only
              exact (choiceGet_vals_suffix _ _ _).trans (rng_next_vals_suffix _)
            · dsimp only
              exact rng_next_vals_suffix _
          · split
            · dsimp only
              exact (choiceGet_vals_suffix _ _ _).trans
                ((rng_next_vals_suffix _).trans (sampleK_vals_suffix _ _ _))
            · dsimp only
              exact (rng_next_vals_suffix _).trans (sampleK_vals_suffix _ _ _)
      · exact sampleK_vals_suffix _ _ _

lemma foldl_agentTurn_inv_suffix (noise sc pol : ℚ) :
    ∀ (ids : List ℕ) (pop : List Whole) (r : Rng),
      (∀ w ∈ pop, boundsInv w) →
      (∀ w ∈ (ids.foldl (agentTurn noise sc pol) (pop, r)).1, boundsInv w) ∧
      (ids.foldl (agentTurn noise sc pol) (pop, r)).2.vals <:+ r.vals := by
  intro ids
  induction ids with
  | nil => intro pop r h; exact ⟨h, List.suffix_refl _⟩
  | cons i ids ih =>
    intro pop r h
    rw [List.foldl_cons]
    have h2 := agentTurn_inv_suffix noise sc pol (pop, r) i h
    have heq : agentTurn noise sc pol (pop, r) i =
        ((agentTurn noise sc pol (pop, r) i).1, (agentTurn noise sc pol (pop, r) i).2) := rfl
    rw [heq]
    exact ⟨(ih _ _ h2.1).1, (ih _ _ h2.1).2.trans h2.2⟩

end V7

namespace V7

lemma create_human_vals_suffix (i : ℕ) (t : ℚ) (iso : Bool) (r : Rng) :
    (create_human i t iso r).2.vals <:+ r.vals := rng_next_vals_suffix r

lemma choice3_vals_suffix (a b c : String) (r : Rng) :
    (choice3 a b c r).2.vals <:+ r.vals := rng_next_vals_suffix r

lemma randint_draw_vals_suffix (a b : ℕ) (r : Rng) :
    (randint_draw a b r).2.vals <:+ r.vals := rng_next_vals_suffix r

lemma gauss_draw_vals_suffix (mu s : ℚ) (r : Rng) :
    (gauss_draw mu s r).2.vals <:+ r.vals := rng_next_vals_suffix r

lemma uniform_draw_mem (a b : ℚ) (r : Rng) (hab : a ≤ b) (hb : r.bounded) :
    a ≤ (uniform_draw a b r).1 ∧ (uniform_draw a b r).1 ≤ b := by
  have hv := rng_next_bounded r hb
  unfold uniform_draw
  dsimp only
  constructor <;> nlinarith [hv.1, hv.2]

lemma boundsInv_scar_update (w : Whole) (s : List Scar) (h : boundsInv w) :
    boundsInv { w with scars := s } := h

lemma boundsInv_corrupted_update (w : Whole) (b : Bool) (h : boundsInv w) :
    boundsInv { w with corrupted := b } := h

lemma create_human_inv (i : ℕ) (t : ℚ) (iso : Bool) (r : Rng)
    (h0 : 0 ≤ t) (h1 : t ≤ 1) (hb : r.bounded) :
    boundsInv (create_human i t iso r).1 := by
  have hu := uniform_draw_mem (3/10) (7/10) r (by norm_num) hb
  unfold create_human boundsInv
  dsimp only
  exact ⟨le_trans (by norm_num) hu.1, le_trans hu.2 (by norm_num), h0, h1⟩

lemma create_ai_inv (i : ℕ) (t : String) : boundsInv (create_ai i t) := by
  unfold create_ai boundsInv
  dsimp only
  split_ifs <;> norm_num

lemma create_awakened_inv (i : ℕ) : boundsInv (create_awakened_human i) := by
  unfold create_awakened_human boundsInv
  norm_num

lemma birth_try_inv (hl : ℕ) (st : List Whole × ℕ × Rng) (parent : Whole)
    (hpop : ∀ w ∈ st.1, boundsInv w) (hpar : boundsInv parent) (hr : st.2.2.bounded) :
    (∀ w ∈ (birth_try hl st parent).1, boundsInv w) ∧
    (birth_try hl st parent).2.2.bounded := by
  have htr0 : 0 ≤ max ((1:ℚ)/10) (parent.trust_in_institutions * (9/10)) :=
    le_trans (by norm_num) (le_max_left _ _)
  have htr1 : max ((1:ℚ)/10) (parent.trust_in_institutions * (9/10)) ≤ 1 :=
    max_le (by norm_num) (by nlinarith [hpar.2.2.1, hpar.2.2.2])
  unfold birth_try
  dsimp only
  split_ifs with hb hc
  · constructor
    · intro x hx
      rcases List.mem_append.mp hx with hx | hx
      · exact hpop x hx
      · have hx2 := List.mem_singleton.mp hx
        subst hx2
        refine boundsInv_scar_update _ _ (create_human_inv _ _ _ _ htr0 htr1 ?_)
        exact rng_bounded_of_suffix ((rng_next_vals_suffix _).trans (rng_next_vals_suffix _)) hr
    · refine rng_bounded_of_suffix ?_ hr
      refine (inherit_loop_vals_suffix _ _ _ _).trans ?_
      refine (create_human_vals_suffix _ _ _ _).trans ?_
      exact (rng_next_vals_suffix _).trans (rng_next_vals_suffix _)
  · constructor
    · intro x hx
      rcases List.mem_append.mp hx with hx | hx
      · exact hpop x hx
      · have hx2 := List.mem_singleton.mp hx
        subst hx2
        refine boundsInv_scar_update _ _ (create_human_inv _ _ _ _ htr0 htr1 ?_)
        exact rng_bounded_of_suffix ((rng_next_vals_suffix _).trans (rng_next_vals_suffix _)) hr
    · refine rng_bounded_of_suffix ?_ hr
      refine (inherit_loop_vals_suffix _ _ _ _).trans ?_
      refine (create_human_vals_suffix _ _ _ _).trans ?_
      exact (rng_next_vals_suffix _).trans (rng_next_vals_suffix _)
  · exact ⟨hpop, rng_bounded_of_suffix (rng_next_vals_suffix _) hr⟩

lemma foldl_birth_try_inv (hl : ℕ) :
    ∀ (parents pop : List Whole) (nid : ℕ) (r : Rng),
      (∀ w ∈ pop, boundsInv w) → (∀ p ∈ parents, boundsInv p) → r.bounded →
      (∀ w ∈ (parents.foldl (birth_try hl) (pop, nid, r)).1, boundsInv w) ∧
      (parents.foldl (birth_try hl) (pop, nid, r)).2.2.bounded := by
  intro parents
  induction parents with
  | nil => intro pop nid r h hp hr; exact ⟨h, hr⟩
  | cons p ps ih =>
    intro pop nid r h hp hr
    rw [List.foldl_cons]
    have h2 := birth_try_inv hl (pop, nid, r) p h (hp p (List.mem_cons_self _ _)) hr
    have heq : birth_try hl (pop, nid, r) p =
        ((birth_try hl (pop, nid, r) p).1, (birth_try hl (pop, nid, r) p).2.1,
          (birth_try hl (pop, nid, r) p).2.2) := rfl
    rw [heq]
    exact ih _ _ _ h2.1 (fun q hq => hp q (List.mem_cons_of_mem _ hq)) h2.2

lemma append_range_map_inv (pop : List Whole) (n : ℕ) (f : ℕ → Whole)
    (hpop : ∀ w ∈ pop, boundsInv w) (hf : ∀ k, boundsInv (f k)) :
    ∀ x ∈ pop ++ (List.range n).map f, boundsInv x := by
  intro x hx
  rcases List.mem_append.mp hx with hx | hx
  · exact hpop x hx
  · rcases List.mem_map.mp hx with ⟨k, -, rfl⟩
    exact hf k

lemma ite_pair_inv {c : Prop} [inst : Decidable c] (a b : List Whole × ℕ)
    (ha : ∀ x ∈ a.1, boundsInv x) (hb : ∀ x ∈ b.1, boundsInv x) :
    ∀ x ∈ (if c then a else b).1, boundsInv x := by
  intro x hx
  split at hx
  · exact ha x hx
  · exact hb x hx

lemma mem_ite_list {α : Type} {c : Prop} [inst : Decidable c] {a b : List α} {x : α}
    (hx : x ∈ (if c then a else b)) : x ∈ a ∨ x ∈ b := by
  split at hx
  · exact Or.inl hx
  · exact Or.inr hx

lemma ite_inl_inr {α β : Type} {c : Prop} [inst : Decidable c] {a : α} {b y : β}
    (h : (if c then Sum.inl a else Sum.inr b) = Sum.inr y) : b = y := by
  split at h
  · exact absurd h (by simp)
  · simpa using h

set_option maxHeartbeats 2000000 in
lemma genStep7_inv (name : String) (noise sc pol : ℚ) (aB aBg aH aHg : ℕ)
    (grow : Bool) (rate : ℕ) (gen : ℕ) (st st2 : St7)
    (hpop : ∀ w ∈ st.population, boundsInv w) (hrng : st.rng.bounded)
    (h : genStep7 name noise sc pol aB aBg aH aHg grow rate gen st = Sum.inr st2) :
    (∀ w ∈ st2.population, boundsInv w) ∧ st2.rng.bounded := by
  unfold genStep7 at h
  dsimp only at h
  have h2 := ite_inl_inr h
  subst h2
  dsimp only
  have hS1 : ∀ x ∈ (if gen = aBg ∧ 0 < aB ∧ ¬ grow then
      (st.population ++ (List.range aB).map (fun k => create_ai (st.next_id + k) ("bridge")),
        st.next_id + aB)
    else (st.population, st.next_id)).1, boundsInv x :=
    ite_pair_inv _ _
      (append_range_map_inv _ _ _ hpop (fun k => create_ai_inv _ _)) hpop
  have hS2 : ∀ x ∈ (if grow ∧ aBg ≤ gen then
      ((if gen = aBg ∧ 0 < aB ∧ ¬ grow then
          (st.population ++ (List.range aB).map (fun k => create_ai (st.next_id + k) ("bridge")),
            st.next_id + aB)
        else (st.population, st.next_id)).1 ++
        (List.range rate).map (fun k => create_ai ((if gen = aBg ∧ 0 < aB ∧ ¬ grow then
          (st.population ++ (List.range aB).map (fun k => create_ai (st.next_id + k) ("bridge")),
            st.next_id + aB)
        else (st.population, st.next_id)).2 + k) ("bridge")),
        (if gen = aBg ∧ 0 < aB ∧ ¬ grow then
          (st.population ++ (List.range aB).map (fun k => create_ai (st.next_id + k) ("bridge")),
            st.next_id + aB)
        else (st.population, st.next_id)).2 + rate)
    else (if gen = aBg ∧ 0 < aB ∧ ¬ grow then
          (st.population ++ (List.range aB).map (fun k => create_ai (st.next_id + k) ("bridge")),
            st.next_id + aB)
        else (st.population, st.next_id))).1, boundsInv x :=
    ite_pair_inv _ _
      (append_range_map_inv _ _ _ hS1 (fun k => create_ai_inv _ _)) hS1
  have hS3 : ∀ x ∈ (if gen = aHg ∧ 0 < aH then
      ((if grow ∧ aBg ≤ gen then
      ((if gen = aBg ∧ 0 < aB ∧ ¬ grow then
          (st.population ++ (List.range aB).map (fun k => create_ai (st.next_id + k) ("bridge")),
            st.next_id + aB)
        else (st.population, st.next_id)).1 ++
        (List.range rate).map (fun k => create_ai ((if gen = aBg ∧ 0 < aB ∧ ¬ grow then
          (st.population ++ (List.range aB).map (fun k => create_ai (st.next_id + k) ("bridge")),
            st.next_id + aB)
        else (st.population, st.next_id)).2 + k) ("bridge")),
        (if gen = aBg ∧ 0 < aB ∧ ¬ grow then
          (st.population ++ (List.range aB).map (fun k => create_ai (st.next_id + k) ("bridge")),
            st.next_id + aB)
        else (st.population, st.next_id)).2 + rate)
    else (if gen = aBg ∧ 0 < aB ∧ ¬ grow then
          (st.population ++ (List.range aB).map (fun k => create_ai (st.next_id + k) ("bridge")),
            st.next_id + aB)
        else (st.population, st.next_id))).1 ++
        (List.range aH).map (fun k => create_awakened_human ((if grow ∧ aBg ≤ gen then
      ((if gen = aBg ∧ 0 < aB ∧ ¬ grow then
          (st.population ++ (List.range aB).map (fun k => create_ai (st.next_id + k) ("bridge")),
            st.next_id + aB)
        else (st.population, st.next_id)).1 ++
        (List.range rate).map (fun k => create_ai ((if gen = aBg ∧ 0 < aB ∧ ¬ grow then
          (st.population ++ (List.range aB).map (fun k => create_ai (st.next_id + k) ("bridge")),
            st.next_id + aB)
        else (st.population, st.next_id)).2 + k) ("bridge")),
        (if gen = aBg ∧ 0 < aB ∧ ¬ grow then
          (st.population ++ (List.range aB).map (fun k => create_ai (st.next_id + k) ("bridge")),
            st.next_id + aB)
        else (st.population, st.next_id)).2 + rate)
    else (if gen = aBg ∧ 0 < aB ∧ ¬ grow then
          (st.population ++ (List.range aB).map (fun k => create_ai (st.next_id + k) ("bridge")),
            st.next_id + aB)
        else (st.population, st.next_id))).2 + k)),
        (if grow ∧ aBg ≤ gen then
      ((if gen = aBg ∧ 0 < aB ∧ ¬ grow then
          (st.population ++ (List.range aB).map (fun k => create_ai (st.next_id + k) ("bridge")),
            st.next_id + aB)
        else (st.population, st.next_id)).1 ++
        (List.range rate).map (fun k => create_ai ((if gen = aBg ∧ 0 < aB ∧ ¬ grow then
          (st.population ++ (List.range aB).map (fun k => create_ai (st.next_id + k) ("bridge")),
            st.next_id + aB)
        else (st.population, st.next_id)).2 + k) ("bridge")),
        (if gen = aBg ∧ 0 < aB ∧ ¬ grow then
          (st.population ++ (List.range aB).map (fun k => create_ai (st.next_id + k) ("bridge")),
            st.next_id + aB)
        else (st.population, st.next_id)).2 + rate)
    else (if gen = aBg ∧ 0 < aB ∧ ¬ grow then
          (st.population ++ (List.range aB).map (fun k => create_ai (st.next_id + k) ("bridge")),
            st.next_id + aB)
        else (st.population, st.next_id))).2 + aH)
    else (if grow ∧ aBg ≤ gen then
      ((if gen = aBg ∧ 0 < aB ∧ ¬ grow then
          (st.population ++ (List.range aB).map (fun k => create_ai (st.next_id + k) ("bridge")),
            st.next_id + aB)
        else (st.population, st.next_id)).1 ++
        (List.range rate).map (fun k => create_ai ((if gen = aBg ∧ 0 < aB ∧ ¬ grow then
          (st.population ++ (List.range aB).map (fun k => create_ai (st.next_id + k) ("bridge")),
            st.next_id + aB)
        else (st.population, st.next_id)).2 + k) ("bridge")),
        (if gen = aBg ∧ 0 < aB ∧ ¬ grow then
          (st.population ++ (List.range aB).map (fun k => create_ai (st.next_id + k) ("bridge")),
            st.next_id + aB)
        else (st.population, st.next_id)).2 + rate)
    else (if gen = aBg ∧ 0 < aB ∧ ¬ grow then
          (st.population ++ (List.range aB).map (fun k => create_ai (st.next_id + k) ("bridge")),
            st.next_id + aB)
        else (st.population, st.next_id)))).1, boundsInv x :=
    ite_pair_inv _ _
      (append_range_map_inv _ _ _ hS2 (fun k => create_awakened_inv _)) hS2
  refine foldl_birth_try_inv _ _ _ _ _ ?_ ?_ ?_
  · intro x hx
    have hx2 := List.mem_of_mem_filter hx
    rcases mem_ite_list hx2 with hx3 | hx3
    · exact (foldl_agentTurn_inv_suffix noise sc pol _ _ _ hS3).1 x (List.mem_of_mem_filter hx3)
    · exact (foldl_agentTurn_inv_suffix noise sc pol _ _ _ hS3).1 x hx3
  · intro p hp
    have hp2 := List.mem_of_mem_filter (List.mem_of_mem_take hp)
    have hp3 := List.mem_of_mem_filter hp2
    have hp4 := List.mem_of_mem_filter hp3
    rcases mem_ite_list hp4 with hp5 | hp5
    · exact (foldl_agentTurn_inv_suffix noise sc pol _ _ _ hS3).1 p (List.mem_of_mem_filter hp5)
    · exact (foldl_agentTurn_inv_suffix noise sc pol _ _ _ hS3).1 p hp5
  · exact rng_bounded_of_suffix (foldl_agentTurn_inv_suffix noise sc pol _ _ _ hS3).2 hrng

lemma run_states7_inv (name : String) (noise sc pol : ℚ) (aB aBg aH aHg : ℕ)
    (grow : Bool) (rate : ℕ) :
    ∀ (n gen : ℕ) (st : St7), (∀ w ∈ st.population, boundsInv w) → st.rng.bounded →
      ∀ s ∈ run_states7 name noise sc pol aB aBg aH aHg grow rate n gen st,
        ∀ w ∈ s.population, boundsInv w := by
  intro n
  induction n with
  | zero =>
    intro gen st hp hr s hs
    unfold run_states7 at hs
    have hs2 := List.mem_singleton.mp hs
    subst hs2
    exact hp
  | succ n ih =>
    intro gen st hp hr s hs
    unfold run_states7 at hs
    rcases List.mem_cons.mp hs with heq | hs2
    · subst heq
      exact hp
    · rcases hg : genStep7 name noise sc pol aB aBg aH aHg grow rate gen st with res | stN <;>
        rw [hg] at hs2
      · simp at hs2
      · have h2 := genStep7_inv name noise sc pol aB aBg aH aHg grow rate gen st stN hp hr hg
        exact ih (gen + 1) stN h2.1 h2.2 s hs2

lemma decl_scars_vals_suffix : ∀ (n : ℕ) (r : Rng), (decl_scars n r).2.vals <:+ r.vals := by
  intro n
  induction n with
  | zero => intro r; exact List.suffix_refl _
  | succ n ih =>
    intro r
    unfold decl_scars
    dsimp only
    exact (ih _).trans ((uniform_draw_vals_suffix _ _ _).trans
      ((choice3_vals_suffix _ _ _ _).trans
        ((choice2_vals_suffix _ _ _).trans (choice2_vals_suffix _ _ _))))

lemma decl_human_inv_suffix (i : ℕ) (r : Rng) (hb : r.bounded) :
    boundsInv (decl_human i r).1 ∧ (decl_human i r).2.vals <:+ r.vals := by
  have htr0 : ∀ g : ℚ, 0 ≤ max (1/10) (min (8/10) g) :=
    fun g => le_trans (by norm_num) (le_max_left _ _)
  have htr1 : ∀ g : ℚ, max (1/10) (min (8/10) g) ≤ 1 :=
    fun g => max_le (by norm_num) (le_trans (min_le_left _ _) (by norm_num))
  unfold decl_human
  dsimp only
  constructor
  · split_ifs with hc
    · refine boundsInv_corrupted_update _ true
        (boundsInv_scar_update _ _ (create_human_inv _ _ _ _ (htr0 _) (htr1 _) ?_))
      exact rng_bounded_of_suffix
        ((rng_next_vals_suffix _).trans (gauss_draw_vals_suffix _ _ _)) hb
    · refine boundsInv_scar_update _ _ (create_human_inv _ _ _ _ (htr0 _) (htr1 _) ?_)
      exact rng_bounded_of_suffix
        ((rng_next_vals_suffix _).trans (gauss_draw_vals_suffix _ _ _)) hb
  · refine (rng_next_vals_suffix _).trans ?_
    refine (decl_scars_vals_suffix _ _).trans ?_
    refine (randint_draw_vals_suffix _ _ _).trans ?_
    refine (create_human_vals_suffix _ _ _ _).trans ?_
    exact (rng_next_vals_suffix _).trans (gauss_draw_vals_suffix _ _ _)

lemma build_declining_inv : ∀ (n i : ℕ) (r : Rng), r.bounded →
    (∀ w ∈ (build_declining_civilization n i r).1, boundsInv w) ∧
    (build_declining_civilization n i r).2.2.vals <:+ r.vals := by
  intro n
  induction n with
  | zero =>
    intro i r hb
    constructor
    · intro x hx
      simp [build_declining_civilization] at hx
    · exact List.suffix_refl _
  | succ n ih =>
    intro i r hb
    unfold build_declining_civilization
    dsimp only
    have hd := decl_human_inv_suffix i r hb
    have hrest := ih (i + 1) (decl_human i r).2 (rng_bounded_of_suffix hd.2 hb)
    constructor
    · intro x hx
      rcases List.mem_cons.mp hx with heq | hx2
      · subst heq
        exact hd.1
      · exact hrest.1 x hx2
    · exact hrest.2.trans hd.2

lemma collapsed_human_inv_suffix (i : ℕ) (r : Rng) (hb : r.bounded) :
    boundsInv (collapsed_human i r).1 ∧ (collapsed_human i r).2.vals <:+ r.vals := by
  have hb1 : (r.next.2).bounded := rng_bounded_of_suffix (rng_next_vals_suffix r) hb
  have hb2 : (r.next.2.next.2).bounded := rng_bounded_of_suffix (rng_next_vals_suffix _) hb1
  have h3 := rng_next_bounded _ hb2
  unfold collapsed_human create_human uniform_draw boundsInv
  dsimp only
  constructor
  · split_ifs with hc <;>
      exact ⟨by nlinarith [h3.1, h3.2], by nlinarith [h3.1, h3.2], by norm_num, by norm_num⟩
  · exact (rng_next_vals_suffix _).trans ((rng_next_vals_suffix _).trans
      ((rng_next_vals_suffix _).trans (rng_next_vals_suffix _)))

lemma build_collapsed_inv : ∀ (n i : ℕ) (r : Rng), r.bounded →
    (∀ w ∈ (build_collapsed_civilization n i r).1, boundsInv w) ∧
    (build_collapsed_civilization n i r).2.2.vals <:+ r.vals := by
  intro n
  induction n with
  | zero =>
    intro i r hb
    constructor
    · intro x hx
      simp [build_collapsed_civilization] at hx
    · exact List.suffix_refl _
  | succ n ih =>
    intro i r hb
    unfold build_collapsed_civilization
    dsimp only
    have hd := collapsed_human_inv_suffix i r hb
    have hrest := ih (i + 1) (collapsed_human i r).2 (rng_bounded_of_suffix hd.2 hb)
    constructor
    · intro x hx
      rcases List.mem_cons.mp hx with heq | hx2
      · subst heq
        exact hd.1
      · exact hrest.1 x hx2
    · exact hrest.2.trans hd.2

end V7


namespace V5

lemma scar_recall_vals_suffix5 :
    ∀ (scars : List Scar) (r : Rng), (scar_recall scars r).2.vals <:+ r.vals := by
  intro scars
  induction scars with
  | nil => intro r; exact List.suffix_refl _
  | cons s rest ih =>
    intro r
    unfold scar_recall
    dsimp only
    split_ifs with h1 h2
    · exact rng_next_vals_suffix r
    · exact (ih _).trans (rng_next_vals_suffix r)
    · exact ih r

set_option maxHeartbeats 1000000 in
lemma decide_vals_suffix5 (w other : Whole) (noise : ℚ) (r : Rng) :
    (Whole.decide w other noise r).2.vals <:+ r.vals := by
  have s1 : r.next.2.vals <:+ r.vals := rng_next_vals_suffix r
  have s2 : r.next.2.next.2.vals <:+ r.vals := (rng_next_vals_suffix _).trans s1
  have s3 : r.next.2.next.2.next.2.vals <:+ r.vals := (rng_next_vals_suffix _).trans s2
  unfold Whole.decide
  split_ifs with h1 h2 h3 h4
  · exact List.suffix_refl _
  · exact List.suffix_refl _
  · exact List.suffix_refl _
  · exact choice2_vals_suffix _ _ _
  · dsimp only
    split_ifs with h5 h6 h7 <;>
      first
        | exact (choice2_vals_suffix _ _ _).trans s1
        | exact s3
        | (dsimp only
           rcases hsr : (scar_recall (lastN 20 w.scars).reverse r.next.2.next.2.next.2).1 with _ | a <;>
             simp only [hsr] <;>
             first
               | exact (rng_next_vals_suffix _).trans ((scar_recall_vals_suffix5 _ _).trans s3)
               | exact (scar_recall_vals_suffix5 _ _).trans s3)
        | (dsimp only
           rcases hsr : (scar_recall (lastN 20 w.scars).reverse r.next.2.next.2).1 with _ | a <;>
             simp only [hsr] <;>
             first
               | exact (rng_next_vals_suffix _).trans ((scar_recall_vals_suffix5 _ _).trans s2)
               | exact (scar_recall_vals_suffix5 _ _).trans s2)

set_option maxHeartbeats 1000000 in
lemma interact_vals_suffix5 (w1 w2 : Whole) (noise sc pol : ℚ) (r : Rng) :
    (interact w1 w2 noise sc pol r).2.2.vals <:+ r.vals := by
  have d12 : (Whole.decide w2.init_rd w1.init_rd noise
      (Whole.decide w1.init_rd w2.init_rd noise r).2).2.vals <:+ r.vals :=
    (decide_vals_suffix5 _ _ _ _).trans (decide_vals_suffix5 _ _ _ _)
  unfold interact
  dsimp only
  split_ifs <;>
    · repeat' refine (rng_next_vals_suffix _).trans ?_
      exact d12

@[simp] lemma learn_trust5 (w : Whole) (a b o s : String) :
    (w.learn a b o s).trust_in_institutions = w.trust_in_institutions := rfl

@[simp] lemma update_coherence_trust5 (w : Whole) (d : ℚ) :
    (w.update_coherence d).trust_in_institutions = w.trust_in_institutions := rfl

@[simp] lemma init_rd_trust5 (w : Whole) :
    w.init_rd.trust_in_institutions = w.trust_in_institutions := by
  unfold Whole.init_rd; split <;> rfl

lemma resolve_trust5 (w1 w2 : Whole) (a1 a2 : String) (s p : ℚ) :
    (resolve w1 w2 a1 a2 s p).w1.trust_in_institutions = w1.trust_in_institutions ∧
    (resolve w1 w2 a1 a2 s p).w2.trust_in_institutions = w2.trust_in_institutions := by
  unfold resolve; split_ifs <;> exact ⟨rfl, rfl⟩

@[simp] lemma receive_teaching_trust5 (w t : Whole) :
    (Whole.receive_teaching w t).trust_in_institutions =
      if t.is_ai ∧ t.ai_type = ("bridge") then min 1 (w.trust_in_institutions + 1/10)
      else w.trust_in_institutions := by
  unfold Whole.receive_teaching
  split_ifs <;> rfl

set_option maxHeartbeats 1000000 in
lemma interact_s_star_bounds5 (w1 w2 : Whole) (noise sc pol : ℚ) (r : Rng) :
    (1/100 ≤ (interact w1 w2 noise sc pol r).1.s_star ∧
      (interact w1 w2 noise sc pol r).1.s_star ≤ 1) ∧
    (1/100 ≤ (interact w1 w2 noise sc pol r).2.1.s_star ∧
      (interact w1 w2 noise sc pol r).2.1.s_star ≤ 1) := by
  unfold interact
  dsimp only
  split_ifs <;>
    refine ⟨⟨?_, ?_⟩, ?_, ?_⟩ <;>
      · simp only [receive_teaching_s_star5, learn_s_star5, update_coherence_s_star5,
          resolve_s_star5]
        first
          | exact (clamp01_bounds _).1
          | exact (clamp01_bounds _).2

set_option maxHeartbeats 1000000 in
lemma interact_trust_bounds5 (w1 w2 : Whole) (noise sc pol : ℚ) (r : Rng)
    (h1a : 0 ≤ w1.trust_in_institutions) (h1b : w1.trust_in_institutions ≤ 1)
    (h2a : 0 ≤ w2.trust_in_institutions) (h2b : w2.trust_in_institutions ≤ 1) :
    (0 ≤ (interact w1 w2 noise sc pol r).1.trust_in_institutions ∧
      (interact w1 w2 noise sc pol r).1.trust_in_institutions ≤ 1) ∧
    (0 ≤ (interact w1 w2 noise sc pol r).2.1.trust_in_institutions ∧
      (interact w1 w2 noise sc pol r).2.1.trust_in_institutions ≤ 1) := by
  unfold interact
  dsimp only
  split_ifs <;>
    refine ⟨⟨?_, ?_⟩, ?_, ?_⟩ <;>
      · simp only [receive_teaching_trust5, learn_trust5, update_coherence_trust5, init_rd_trust5,
          resolve_trust5]
        first
          | linarith
          | exact min_le_left _ _
          | exact le_min (by norm_num) (by linarith)
          | (split_ifs <;>
              first
                | linarith
                | exact min_le_left _ _
                | exact le_min (by norm_num) (by linarith))

lemma interact_boundsInv5 (w1 w2 : Whole) (noise sc pol : ℚ) (r : Rng)
    (h1 : boundsInv5 w1) (h2 : boundsInv5 w2) :
    boundsInv5 (interact w1 w2 noise sc pol r).1 ∧
    boundsInv5 (interact w1 w2 noise sc pol r).2.1 := by
  obtain ⟨-, -, h1a, h1b⟩ := h1
  obtain ⟨-, -, h2a, h2b⟩ := h2
  have hs := interact_s_star_bounds5 w1 w2 noise sc pol r
  have ht := interact_trust_bounds5 w1 w2 noise sc pol r h1a h1b h2a h2b
  exact ⟨⟨hs.1.1, hs.1.2, ht.1.1, ht.1.2⟩, ⟨hs.2.1, hs.2.2, ht.2.1, ht.2.2⟩⟩

lemma mem_updateById5 {pop : List Whole} {w x : Whole} (hx : x ∈ updateById pop w) :
    x = w ∨ x ∈ pop := by
  rcases List.mem_map.mp hx with ⟨p, hp, heq⟩
  by_cases h : p.id = w.id
  · rw [if_pos h] at heq
    exact Or.inl heq.symm
  · rw [if_neg h] at heq
    exact Or.inr (heq ▸ hp)

lemma interactById_inv_suffix5 (noise sc pol : ℚ) (st : List Whole × Rng) (e : ℕ × ℕ)
    (h : ∀ w ∈ st.1, boundsInv5 w) :
    (∀ w ∈ (interactById noise sc pol st e).1, boundsInv5 w) ∧
    (interactById noise sc pol st e).2.vals <:+ st.2.vals := by
  unfold interactById
  rcases hf1 : st.1.find? (fun p => p.id == e.1) with _ | w1 <;>
    rcases hf2 : st.1.find? (fun p => p.id == e.2) with _ | w2 <;>
      simp only [hf1, hf2]
  · exact ⟨h, List.suffix_refl _⟩
  · exact ⟨h, List.suffix_refl _⟩
  · exact ⟨h, List.suffix_refl _⟩
  · have hm1 : w1 ∈ st.1 := List.mem_of_find?_eq_some hf1
    have hm2 : w2 ∈ st.1 := List.mem_of_find?_eq_some hf2
    have hinv := interact_boundsInv5 w1 w2 noise sc pol st.2 (h w1 hm1) (h w2 hm2)
    refine ⟨?_, interact_vals_suffix5 _ _ _ _ _ _⟩
    intro x hx
    rcases mem_updateById5 hx with heq | hx2
    · exact heq ▸ hinv.2
    · rcases mem_updateById5 hx2 with heq | hx3
      · exact heq ▸ hinv.1
      · exact h x hx3

lemma foldl_interactById_inv_suffix5 (noise sc pol : ℚ) :
    ∀ (evs : List (ℕ × ℕ)) (pop : List Whole) (r : Rng),
      (∀ w ∈ pop, boundsInv5 w) →
      (∀ w ∈ (evs.foldl (interactById noise sc pol) (pop, r)).1, boundsInv5 w) ∧
      (evs.foldl (interactById noise sc pol) (pop, r)).2.vals <:+ r.vals := by
  intro evs
  induction evs with
  | nil => intro pop r h; exact ⟨h, List.suffix_refl _⟩
  | cons e evs ih =>
    intro pop r h
    rw [List.foldl_cons]
    have h2 := interactById_inv_suffix5 noise sc pol (pop, r) e h
    have heq : interactById noise sc pol (pop, r) e =
        ((interactById noise sc pol (pop, r) e).1, (interactById noise sc pol (pop, r) e).2) := rfl
    rw [heq]
    exact ⟨(ih _ _ h2.1).1, (ih _ _ h2.1).2.trans h2.2⟩

lemma agentTurn_inv_suffix5 (noise sc pol : ℚ) (st : List Whole × Rng) (wid : ℕ)
    (h : ∀ w ∈ st.1, boundsInv5 w) :
    (∀ w ∈ (agentTurn noise sc pol st wid).1, boundsInv5 w) ∧
    (agentTurn noise sc pol st wid).2.vals <:+ st.2.vals := by
  unfold agentTurn
  rcases hf : st.1.find? (fun p => p.id == wid) with _ | w <;> simp only [hf]
  · exact ⟨h, List.suffix_refl _⟩
  · have key : ∀ (sel : List Whole × Rng), sel.2.vals <:+ st.2.vals →
        (∀ x ∈ ((sel.1.map (fun p => (wid, p.id))).foldl
          (interactById noise sc pol) (st.1, sel.2)).1, boundsInv5 x) ∧
        ((sel.1.map (fun p => (wid, p.id))).foldl
          (interactById noise sc pol) (st.1, sel.2)).2.vals <:+ st.2.vals := by
      intro sel hsel
      refine ⟨(foldl_interactById_inv_suffix5 noise sc pol _ _ _ h).1, ?_⟩
      exact (foldl_interactById_inv_suffix5 noise sc pol _ _ _ h).2.trans hsel
    apply key
    split
    · split
      · split
        · exact List.suffix_refl _
        · exact sampleK_vals_suffix _ _ _
      · split
        · split
          · dsimp only
            exact (choiceGet_vals_suffix _ _ _).trans (rng_next_vals_suffix _)
          · dsimp only
            exact rng_next_vals_suffix _
        · split
          · dsimp only
            exact (choiceGet_vals_suffix _ _ _).trans
              ((rng_next_vals_suffix _).trans (sampleK_vals_suffix _ _ _))
          · dsimp only
            exact (rng_next_vals_suffix _).trans (sampleK_vals_suffix _ _ _)
    · split
      · exact List.suffix_refl _
      · exact sampleK_vals_suffix _ _ _

lemma foldl_agentTurn_inv_suffix5 (noise sc pol : ℚ) :
    ∀ (ids : List ℕ) (pop : List Whole) (r : Rng),
      (∀ w ∈ pop, boundsInv5 w) →
      (∀ w ∈ (ids.foldl (agentTurn noise sc pol) (pop, r)).1, boundsInv5 w) ∧
      (ids.foldl (agentTurn noise sc pol) (pop, r)).2.vals <:+ r.vals := by
  intro ids
  induction ids with
  | nil => intro pop r h; exact ⟨h, List.suffix_refl _⟩
  | cons i ids ih =>
    intro pop r h
    rw [List.foldl_cons]
    have h2 := agentTurn_inv_suffix5 noise sc pol (pop, r) i h
    have heq : agentTurn noise sc pol (pop, r) i =
        ((agentTurn noise sc pol (pop, r) i).1, (agentTurn noise sc pol (pop, r) i).2) := rfl
    rw [heq]
    exact ⟨(ih _ _ h2.1).1, (ih _ _ h2.1).2.trans h2.2⟩

end V5
